import Mathlib

/-!
Verification of the obligation extraction / normalization / validation pipeline
of the RiskSafeAI compliance system (directory compliance_chat/app).

The Lean definitions below are a shallow embedding of the Python source:

* data model           — app/models.py (plus agent-local DTOs in
                         app/agents/extraction.py and normalization.py);
* clustering           — cluster_similar_obligations, app/agents/normalization.py;
* canonical synthesis  — process_cluster inside normalization_agents,
                         app/agents/normalization.py;
* extraction stage     — obligation_detection_agent and
                         atomic_extractor_and_scorer, app/agents/extraction.py;
* applicability stage  — applicability_analyzer, app/agents/applicability.py;
* trust gates          — regulatory_posture_enforcer, privacy_security_scanner,
                         grounding_validator_agent, app/agents/trust.py;
* final safety stage   — safety_validator_and_packager, app/agents/validation.py;
* wiring               — build_enterprise_compliance_workflow, app/graph.py, and
                         the initial state of app/orchestrator.py.

External collaborators (the LLM structured-output calls and the embedding /
vector-search backend) are modelled as oracles: each call site receives the
call result as an explicit parameter (an Except value: ok output, or error for
a raised exception), and cosine similarity of the externally produced
embeddings is an abstract rational-valued matrix.  Python floats are modelled
as rationals; all threshold comparisons in the source are order comparisons on
decimal constants, which rationals represent exactly.

Where the source fans out work to a thread pool and collects with
as_completed, completion order may permute the collected list; the embedding
collects in submission order.  Every theorem below about those collections is
order-independent (membership, length, id-assignment by final position).
-/

namespace RiskSafeAI

/-! ## Enums (models.py) -/

/-- ConfidenceLevel enum of models.py. -/
inductive ConfidenceLevel where
  | HIGH | MEDIUM | LOW
deriving DecidableEq, Repr

/-- ObligationType enum of models.py. -/
inductive ObligationType where
  | MANDATORY | CONDITIONAL | GUIDANCE | INFORMATIONAL
deriving DecidableEq, Repr

/-- ActionType enum of models.py. -/
inductive ActionType where
  | MUST_DO | MUST_NOT_DO | CONDITIONAL
deriving DecidableEq, Repr

/-- CertaintyLevel enum of models.py. -/
inductive CertaintyLevel where
  | CERTAIN | LIKELY | UNCERTAIN
deriving DecidableEq, Repr

/-- ReviewAction enum of models.py. -/
inductive ReviewAction where
  | APPROVE | EDIT | REJECT | ESCALATE
deriving DecidableEq, Repr

/-- The Literal action type CONTINUE / BLOCK / ESCALATE used by the trust
gates (PostureCheck, PrivacyScan, TrustValidation in models.py). -/
inductive GateAction where
  | CONTINUE | BLOCK | ESCALATE
deriving DecidableEq, Repr

/-- The Literal action type APPROVE / REVIEW_REQUIRED / BLOCK of
FinalSafetyValidation in models.py / validation.py. -/
inductive SafetyAction where
  | APPROVE | REVIEW_REQUIRED | BLOCK
deriving DecidableEq, Repr

/-! ## Core data models (models.py) -/

/-- SourceGrounding of models.py.  The pydantic min_length=20 constraint on
verbatim_excerpt is a construction-time validation, not used by any modelled
stage; effective_date is kept abstract as an optional string. -/
structure SourceGrounding where
  regulator : String
  legal_instrument : String
  section_clause : String
  verbatim_excerpt : String
  effective_date : Option String := none
deriving DecidableEq, Repr

/-- ObligationStructure of models.py. -/
structure ObligationStructure where
  subject : String
  action : String
  trigger : Option String := none
  object_scope : Option String := none
  standard : Option String := none
deriving DecidableEq, Repr

/-- ApplicabilityFactors of models.py; the thresholds Dict[str, Any] is
modelled as an association list. -/
structure ApplicabilityFactors where
  entity_type : List String := []
  regulatory_status : List String := []
  jurisdiction : List String := []
  product_service : List String := []
  customer_type : List String := []
  thresholds : List (String × String) := []
  operational : List String := []
  temporal : List String := []
deriving DecidableEq, Repr

/-- TrustValidation of models.py. -/
structure TrustValidation where
  grounding_validated : Bool
  posture_compliant : Bool
  no_legal_advice : Bool
  privacy_clear : Bool
  trust_flags : List String := []
  action : GateAction := GateAction.CONTINUE
deriving DecidableEq, Repr

/-- EnterpriseObligation of models.py.  The field named structure in the
source is called struct here because structure is a Lean keyword;
change_sensitivity (a Literal) is an optional string. -/
structure EnterpriseObligation where
  obligation_id : String
  obligation_statement : String
  source_grounding : SourceGrounding
  struct : ObligationStructure
  obligation_type : ObligationType
  action_type : ActionType
  confidence_level : ConfidenceLevel
  confidence_score : ℚ
  applicability_factors : ApplicabilityFactors
  applicability_rules : String
  plain_english_explanation : String
  certainty_level : CertaintyLevel
  canonical_obligation_id : Option String := none
  source_obligation_ids : List String := []
  strictest_standard : Option String := none
  evidence_expectations : List String := []
  review_frequency : Option String := none
  change_sensitivity : Option String := none
  trust_validation : TrustValidation
  human_reviewed : Bool := false
  reviewer_decision : Option ReviewAction := none
  related_obligations : List String := []
deriving DecidableEq, Repr

/-- Chunk of models.py; the metadata dict is an association list and the
field named section in the source is sectionName here (section is a Lean
keyword). -/
structure Chunk where
  id : String
  score : ℚ
  text : String
  metadata : List (String × String) := []
  regulator : String := "ASIC"
  document_name : Option String := none
  sectionName : Option String := none
deriving DecidableEq, Repr

/-! ## Agent output DTOs (agents/extraction.py, normalization.py,
applicability.py, models.py) -/

/-- DetectedObligation of agents/extraction.py. -/
structure DetectedObligation where
  obligation_statement : String
  obligation_type : ObligationType
  action_type : ActionType
  subject : String
  action : String
  trigger : String
  object_scope : Option String := none
  standard : Option String := none
  reasoning : String
  detection_confidence : ℚ
deriving DecidableEq, Repr

/-- ObligationDetection of agents/extraction.py (per-chunk detection output). -/
structure ObligationDetection where
  obligations : List DetectedObligation
  chunk_id : String
  total_detected : Nat
deriving DecidableEq, Repr

/-- AtomicObligation of agents/extraction.py. -/
structure AtomicObligation where
  obligation_statement : String
  source_grounding : SourceGrounding
  struct : ObligationStructure
  obligation_type : ObligationType
  action_type : ActionType
  is_atomic : Bool
  atomic_check_reasoning : String
deriving DecidableEq, Repr

/-- AtomicExtractionOutput of agents/extraction.py. -/
structure AtomicExtractionOutput where
  atomic_obligations : List AtomicObligation
  original_was_atomic : Bool
deriving DecidableEq, Repr

/-- ConfidenceScoring of agents/extraction.py. -/
structure ConfidenceScoring where
  confidence_level : ConfidenceLevel
  confidence_score : ℚ
  confidence_language : String
  certainty_level : CertaintyLevel
  factors : List (String × String) := []
  reasoning : String
deriving DecidableEq, Repr

/-- CanonicalSynthesis of agents/normalization.py. -/
structure CanonicalSynthesis where
  should_merge : Bool
  canonical_statement : String
  strictest_standard : Option String
  all_source_citations : List SourceGrounding
  merged_obligation_ids : List String
  synthesis_reasoning : String
  confidence_level : ConfidenceLevel
  over_normalization_check : String
deriving DecidableEq, Repr

/-- ApplicabilityAnalysis of agents/applicability.py. -/
structure ApplicabilityAnalysis where
  applicability_factors : ApplicabilityFactors
  applicability_rules : String
  exceptions : List String
  evidence_expectations : List String
  plain_english_explanation : String
  reasoning : String
deriving DecidableEq, Repr

/-- PostureCheck of models.py (output of the posture enforcement gate). -/
structure PostureCheck where
  posture_compliant : Bool
  violations : List String
  warnings : List String
  action : GateAction
  reasoning : String
deriving DecidableEq, Repr

/-- PrivacyScan of models.py (output of the privacy scanning gate). -/
structure PrivacyScan where
  clean : Bool
  sensitive_items : List String
  redaction_required : Bool
  action : GateAction
deriving DecidableEq, Repr

/-- FinalSafetyValidation of models.py / validation.py. -/
structure FinalSafetyValidation where
  all_checks_passed : Bool
  failed_checks : List String
  review_required_count : Nat
  high_priority_reviews : List String
  medium_priority_reviews : List String
  action : SafetyAction
deriving DecidableEq, Repr

/-- The review package dict built by safety_validator_and_packager,
validation.py lines 79-83. -/
structure ReviewPackage where
  obligation_id : String
  reason : List String
  suggested_action : String
deriving DecidableEq, Repr

/-- One entry of the intermediate _detected_obligations list built by
obligation_detection_agent (extraction.py lines 135-140); the chunk_metadata
key is not read by any later stage and is omitted. -/
structure DetectedRecord where
  chunk_id : String
  detected : DetectedObligation
deriving DecidableEq, Repr

/-- ComplianceState of models.py, restricted to the fields read or written by
the modelled stages (phases 3-7 of graph.py).  The phase-1/2 fields
user_query, query_context, plan and plan_validated only feed prompt text of
the oracle calls; clustered_obligations is never written or read by any
stage. -/
structure ComplianceState where
  chunks : List Chunk
  trust_check_passed : Bool
  trust_flags : List String
  detected : List DetectedRecord
  obligations : List EnterpriseObligation
  canonical_obligations : List EnterpriseObligation
  review_packages : List ReviewPackage
  final_output : List EnterpriseObligation
  errors : List String
  should_continue : Bool
deriving DecidableEq, Repr

/-! ## Decimal formatting helpers

Python str(i) / f-string {i:04d} formatting, used for the obligation-id
strings OBL-0001 (extraction.py line 299) and CANONICAL-0001
(normalization.py line 147). -/

/-- Fuel-indexed decimal digit conversion; the fuel only serves structural
termination, any fuel above the argument gives the digit list. -/
def natReprAux : Nat → Nat → List Char
  | 0, _ => []
  | fuel + 1, n =>
    if n < 10 then [Nat.digitChar n]
    else natReprAux fuel (n / 10) ++ [Nat.digitChar (n % 10)]

/-- Decimal digit list of a natural number, most significant digit first:
the embedding of Python str(i) for a non-negative int. -/
def natRepr (n : Nat) : List Char := natReprAux (n + 1) n

/-- Left-pad a digit list with zeros to width 4: Python format spec 04d. -/
def pad4 (l : List Char) : List Char :=
  List.replicate (4 - l.length) '0' ++ l

/-- The id string assigned by extraction.py line 299. -/
def oblId (i : Nat) : String :=
  "OBL-" ++ String.mk (pad4 (natRepr i))

/-- The id string assigned by normalization.py line 147. -/
def canonicalId (i : Nat) : String :=
  "CANONICAL-" ++ String.mk (pad4 (natRepr i))

/-- Numeric value of a decimal digit character (inverse of Nat.digitChar on
digits 0-9); used only in proofs, to invert the formatting. -/
def decodeDigit (c : Char) : Nat := c.toNat - 48

/-- The decode step used by decodeNum. -/
def decodeStep (acc : Nat) (c : Char) : Nat := 10 * acc + decodeDigit c

/-- Numeric value of a digit-character list, most significant first. -/
def decodeNum (l : List Char) : Nat :=
  l.foldl decodeStep 0

/-! ## Generic helpers -/

/-- Python enumerate(xs, k). -/
def enumFrom (k : Nat) : List α → List (Nat × α)
  | [] => []
  | x :: xs => (k, x) :: enumFrom (k + 1) xs

/-- Python max of two values: the second replaces the accumulator only when
strictly larger (on ties Python max keeps the earlier value; the rational
value is the same either way). -/
def max2 (a b : ℚ) : ℚ := if a < b then b else a

/-- Python max() over a non-empty list (the empty case, on which Python
raises, is mapped to 0; every call site below passes a non-empty list). -/
def pythonMax : List ℚ → ℚ
  | [] => 0
  | x :: xs => xs.foldl max2 x

/-! ## Agent 12: similarity clustering
(cluster_similar_obligations, normalization.py lines 24-59)

The statement embeddings are produced by the external embedding service
(get_embedding, retrieval.py) and turned into a cosine-similarity matrix;
the clustering loop only reads that matrix, so it is abstracted as a
function sim over index pairs.  The loop itself is translated exactly:
iterate i in increasing order, skip assigned indices, start a cluster at
the first unassigned index and absorb every later unassigned j with
sim i j >= threshold. -/

/-- The inner j-loop of cluster_similar_obligations (lines 47-55): scan the
indices after the seed i, skipping already assigned ones, absorbing those
with similarity to the seed at least t.  Returns the absorbed indices (the
cluster minus its seed) and the updated assigned set. -/
def absorbGo (sim : Nat → Nat → ℚ) (t : ℚ) (i : Nat) :
    List Nat → List Nat → List Nat × List Nat
  | [], assigned => ([], assigned)
  | j :: js, assigned =>
    if j ∈ assigned then absorbGo sim t i js assigned
    else if t ≤ sim i j then
      let r := absorbGo sim t i js (j :: assigned)
      (j :: r.1, r.2)
    else absorbGo sim t i js assigned

/-- The outer i-loop of cluster_similar_obligations (lines 41-57). -/
def clusterGo (sim : Nat → Nat → ℚ) (t : ℚ) :
    List Nat → List Nat → List (List Nat)
  | [], _ => []
  | i :: rest, assigned =>
    if i ∈ assigned then clusterGo sim t rest assigned
    else
      let r := absorbGo sim t i rest (i :: assigned)
      (i :: r.1) :: clusterGo sim t rest r.2

/-- cluster_similar_obligations of normalization.py, over an abstract
similarity matrix sim for the statement embeddings. -/
def cluster_similar_obligations (sim : Nat → Nat → ℚ)
    (obligations : List EnterpriseObligation) (threshold : ℚ := mkRat 85 100) :
    List (List Nat) :=
  if obligations.length < 2 then
    if obligations.isEmpty then [] else [[0]]
  else
    clusterGo sim threshold (List.range obligations.length) []

/-! ## Agent 13: canonical synthesis
(process_cluster inside normalization_agents, normalization.py lines 125-177) -/

/-- Fallback element for list indexing obligations[i]; the clustering output
only ever produces in-range indices (theorem c5 below), so this value is
never actually selected in a pipeline run. -/
def defaultObligation : EnterpriseObligation :=
  { obligation_id := ""
    obligation_statement := ""
    source_grounding :=
      { regulator := "", legal_instrument := "", section_clause := ""
        verbatim_excerpt := "" }
    struct := { subject := "", action := "" }
    obligation_type := ObligationType.MANDATORY
    action_type := ActionType.MUST_DO
    confidence_level := ConfidenceLevel.LOW
    confidence_score := 0
    applicability_factors := {}
    applicability_rules := ""
    plain_english_explanation := ""
    certainty_level := CertaintyLevel.UNCERTAIN
    trust_validation :=
      { grounding_validated := false, posture_compliant := true
        no_legal_advice := true, privacy_clear := true } }

/-- process_cluster of normalization.py lines 125-177, for one cluster.
synth is the outcome of the canonical_synthesis_chain.invoke call for this
cluster: ok on a structured result, error when the call raises (the except
branch, lines 173-175).  A size-1 cluster returns its member before the
chain is ever invoked (lines 127-128).  In the merge branch the source reads
all_source_citations[0]; on an empty citation list that raises IndexError,
which the surrounding except turns into the pass-through of all members, and
likewise for cluster_obls[0] on an empty cluster. -/
def process_cluster (obligations : List EnterpriseObligation)
    (synth : Except String CanonicalSynthesis) (cluster_idx : Nat)
    (cluster : List Nat) : List EnterpriseObligation :=
  match cluster with
  | [k] => [obligations.getD k defaultObligation]
  | _ =>
    let cluster_obls := cluster.map (fun i => obligations.getD i defaultObligation)
    match synth with
    | .error _ => cluster_obls
    | .ok s =>
      if s.should_merge then
        match s.all_source_citations, cluster_obls with
        | [], _ => cluster_obls
        | _, [] => cluster_obls
        | primary :: _, template :: _ =>
          [{ obligation_id := canonicalId cluster_idx
             obligation_statement := s.canonical_statement
             source_grounding := primary
             struct := template.struct
             obligation_type := template.obligation_type
             action_type := template.action_type
             confidence_level := s.confidence_level
             confidence_score := pythonMax (cluster_obls.map (·.confidence_score))
             certainty_level := template.certainty_level
             plain_english_explanation := template.plain_english_explanation
             applicability_factors := template.applicability_factors
             applicability_rules := template.applicability_rules
             evidence_expectations := template.evidence_expectations
             trust_validation := template.trust_validation
             source_obligation_ids := cluster_obls.map (·.obligation_id)
             strictest_standard := s.strictest_standard }]
      else cluster_obls

/-! ## Oracles for the external calls

One record bundling, per call site, the outcome of the structured LLM call
(ok: parsed output; error: the exception message of a raised call) and the
similarity matrix of the externally computed embeddings.  Per-item calls are
indexed the way the source enumerates them (enumerate(..., 1)). -/

/-- Outcomes of all external calls of one pipeline run. -/
structure Oracles where
  posture : Except String PostureCheck
  privacy : Except String PrivacyScan
  detect : Nat → Except String ObligationDetection
  atomic : Nat → Except String AtomicExtractionOutput
  scoring : Nat → Nat → Except String ConfidenceScoring
  sim : Nat → Nat → ℚ
  synth : Nat → Except String CanonicalSynthesis
  app : Nat → Except String ApplicabilityAnalysis
  safety : Except String FinalSafetyValidation

/-! ## Agent 6: posture enforcer (trust.py lines 40-78) -/

/-- regulatory_posture_enforcer of trust.py. -/
def regulatory_posture_enforcer (o : Oracles) (st : ComplianceState) :
    ComplianceState :=
  match o.posture with
  | .ok pc =>
    let st1 :=
      if pc.action = GateAction.BLOCK then
        { st with should_continue := false
                  errors := st.errors ++ ["BLOCKED: Posture violations detected"] }
      else if pc.action = GateAction.ESCALATE then
        { st with trust_flags := st.trust_flags ++ ["POSTURE_ESCALATION"] }
      else st
    { st1 with trust_check_passed := pc.posture_compliant }
  | .error e =>
    { st with errors := st.errors ++ ["Posture check failed: " ++ e]
              trust_check_passed := true }

/-! ## Agent 7: grounding validator (trust.py lines 84-92) -/

/-- grounding_validator_agent of trust.py: a placeholder that returns the
state unchanged. -/
def grounding_validator_agent (st : ComplianceState) : ComplianceState := st

/-! ## Agent 8: privacy scanner (trust.py lines 117-150) -/

/-- privacy_security_scanner of trust.py. -/
def privacy_security_scanner (o : Oracles) (st : ComplianceState) :
    ComplianceState :=
  match o.privacy with
  | .ok r =>
    if r.action = GateAction.BLOCK then
      { st with should_continue := false
                errors := st.errors ++ ["BLOCKED: Sensitive information detected"] }
    else if r.action = GateAction.ESCALATE then
      { st with trust_flags := st.trust_flags ++ ["PRIVACY_ESCALATION"] }
    else st
  | .error e =>
    { st with errors := st.errors ++ ["Privacy scan failed: " ++ e] }

/-! ## Agent 9: obligation detection (extraction.py lines 110-165) -/

/-- obligation_detection_agent of extraction.py: per chunk (first 50,
enumerated from 1), a failed detection call contributes nothing, a
successful one contributes one record per detected obligation tagged with
the chunk id. -/
def obligation_detection_agent (o : Oracles) (st : ComplianceState) :
    ComplianceState :=
  let all_detected :=
    ((enumFrom 1 (st.chunks.take 50)).map (fun p =>
      match o.detect p.1 with
      | .ok detection =>
        detection.obligations.map (fun obl =>
          { chunk_id := p.2.id, detected := obl : DetectedRecord })
      | .error _ => [])).flatten
  { st with detected := all_detected }

/-! ## Agents 10 and 11: atomic extraction and scoring
(atomic_extractor_and_scorer, extraction.py lines 210-303) -/

/-- The EnterpriseObligation constructed at extraction.py lines 252-273 from
one atomic obligation and its confidence scoring; the id is the TEMP
placeholder, replaced post-batch. -/
def mkExtractedObligation (a : AtomicObligation) (conf : ConfidenceScoring) :
    EnterpriseObligation :=
  { obligation_id := "TEMP"
    obligation_statement := a.obligation_statement
    source_grounding := a.source_grounding
    struct := a.struct
    obligation_type := a.obligation_type
    action_type := a.action_type
    confidence_level := conf.confidence_level
    confidence_score := conf.confidence_score
    certainty_level := conf.certainty_level
    plain_english_explanation := conf.confidence_language
    applicability_factors := {}
    applicability_rules := "TBD"
    evidence_expectations := []
    trust_validation :=
      { grounding_validated := false, posture_compliant := true
        no_legal_advice := true, privacy_clear := true
        trust_flags := [], action := GateAction.CONTINUE } }

/-- The scoring loop of extraction.py lines 241-274 over the atomic
obligations of one detected item i (j enumerates the atomics): a raised
scoring call aborts the whole item (the surrounding try covers the loop), so
the item then contributes none. -/
def scoreAtomics (scoring : Nat → Nat → Except String ConfidenceScoring)
    (i : Nat) : Nat → List AtomicObligation →
    Option (List EnterpriseObligation)
  | _, [] => some []
  | j, a :: rest =>
    match scoring i j with
    | .error _ => none
    | .ok conf =>
      match scoreAtomics scoring i (j + 1) rest with
      | none => none
      | some l => some (mkExtractedObligation a conf :: l)

/-- process_obligation of extraction.py lines 222-279 for detected item i:
unknown chunk id, a failed atomic call, or a failed scoring call all
degrade to the empty contribution. -/
def process_obligation (o : Oracles) (chunks : List Chunk) (i : Nat)
    (rec : DetectedRecord) : List EnterpriseObligation :=
  match chunks.find? (fun c => c.id = rec.chunk_id) with
  | none => []
  | some _ =>
    match o.atomic i with
    | .error _ => []
    | .ok out =>
      match scoreAtomics o.scoring i 1 out.atomic_obligations with
      | none => []
      | some l => l

/-- The post-batch id assignment of extraction.py lines 298-299:
for i, obl in enumerate(final_obligations, 1): obl.obligation_id = OBL-i. -/
def assignIds : Nat → List EnterpriseObligation → List EnterpriseObligation
  | _, [] => []
  | k, obl :: rest =>
    { obl with obligation_id := oblId k } :: assignIds (k + 1) rest

/-- atomic_extractor_and_scorer of extraction.py: fan out over the first 100
detected records, collect the per-item contributions, then assign sequential
ids over the collected list. -/
def atomic_extractor_and_scorer (o : Oracles) (st : ComplianceState) :
    ComplianceState :=
  let collected :=
    ((enumFrom 1 (st.detected.take 100)).map (fun p =>
      process_obligation o st.chunks p.1 p.2)).flatten
  { st with obligations := assignIds 1 collected }

/-! ## Agents 12 and 13: normalization (normalization.py lines 104-197) -/

/-- normalization_agents of normalization.py: fewer than 2 obligations skip
normalization; otherwise cluster at threshold 0.85 and synthesize each
cluster (clusters enumerated from 1; the cluster index also feeds the
canonical id). -/
def normalization_agents (o : Oracles) (st : ComplianceState) :
    ComplianceState :=
  let obligations := st.obligations
  if obligations.length < 2 then
    { st with canonical_obligations := obligations }
  else
    let clusters := cluster_similar_obligations o.sim obligations (mkRat 85 100)
    let canonical :=
      ((enumFrom 1 clusters).map (fun p =>
        process_cluster obligations (o.synth p.1) p.1 p.2)).flatten
    { st with canonical_obligations := canonical }

/-! ## Agent 14: applicability analyzer (applicability.py lines 60-107) -/

/-- The per-item update of applicability.py lines 85-88: a successful
analysis overwrites exactly the four applicability fields. -/
def applyAnalysis (obl : EnterpriseObligation) (a : ApplicabilityAnalysis) :
    EnterpriseObligation :=
  { obl with
    applicability_factors := a.applicability_factors
    applicability_rules := a.applicability_rules
    evidence_expectations := a.evidence_expectations
    plain_english_explanation := a.plain_english_explanation }

/-- The batch map of applicability.py lines 72-101 (items enumerated from
1): a failed analysis call returns the obligation unchanged. -/
def appMap (app : Nat → Except String ApplicabilityAnalysis) :
    Nat → List EnterpriseObligation → List EnterpriseObligation
  | _, [] => []
  | k, obl :: rest =>
    (match app k with
     | .ok a => applyAnalysis obl a
     | .error _ => obl) :: appMap app (k + 1) rest

/-- applicability_analyzer of applicability.py: analyze the first 50
canonical obligations, pass the remainder through unmodified (lines
95-104). -/
def applicability_analyzer (app : Nat → Except String ApplicabilityAnalysis)
    (st : ComplianceState) : ComplianceState :=
  let canonical := st.canonical_obligations
  { st with canonical_obligations :=
      appMap app 1 (canonical.take 50) ++ canonical.drop 50 }

/-! ## Agent 15: safety validator and review packager
(safety_validator_and_packager, validation.py lines 46-105) -/

/-- The review trigger of validation.py lines 72-76. -/
def needsReview (obl : EnterpriseObligation) : Bool :=
  decide (obl.confidence_score < mkRat 90 100) ||
  (obl.confidence_level = ConfidenceLevel.MEDIUM) ||
  (obl.confidence_level = ConfidenceLevel.LOW) ||
  !obl.trust_validation.grounding_validated

/-- The review package built at validation.py lines 79-84; the reason text
interpolates the numeric score, which no later code reads, so the embedding
keeps only its constant part. -/
def mkReviewPackage (obl : EnterpriseObligation) : ReviewPackage :=
  { obligation_id := obl.obligation_id
    reason := if obl.confidence_score < mkRat 90 100 then ["Low confidence"] else []
    suggested_action := "REVIEW" }

/-- safety_validator_and_packager of validation.py: on a successful safety
call, package every review-triggering canonical obligation, then either
block (empty final output plus BLOCKED error) or deliver the canonical list;
a raised safety call records the failure and delivers the canonical list
without packaging (lines 101-105). -/
def safety_validator_and_packager (o : Oracles) (st : ComplianceState) :
    ComplianceState :=
  let canonical := st.canonical_obligations
  match o.safety with
  | .ok safety_check =>
    let review_packages := (canonical.filter needsReview).map mkReviewPackage
    let st1 := { st with review_packages := review_packages }
    if safety_check.action = SafetyAction.BLOCK then
      { st1 with should_continue := false
                 errors := st1.errors ++ ["BLOCKED: Final safety checks failed"]
                 final_output := [] }
    else
      { st1 with final_output := canonical }
  | .error e =>
    { st with errors := st.errors ++ ["Final safety check failed: " ++ e]
              final_output := canonical }

/-! ## Workflow wiring (graph.py, orchestrator.py)

The graph runs phases 1-2 (query understanding, planning, scope validation,
query expansion, hybrid retrieval), then the gates, then one conditional
edge after the grounding-validator placeholder: should_continue false goes
to END, true continues through detection, extraction, normalization,
applicability and safety validation.  Phases 1-2 only populate
query_context / plan / chunks and may append their own (non-gate) error
strings (planning.py, retrieval.py); they never touch should_continue,
final_output, obligations or review_packages.  The run is therefore entered
here at the post-retrieval state: the orchestrator's initial state
(orchestrator.py lines 49-65) with the retrieved chunks and the phase-1/2
error strings filled in. -/

/-- The state in which the gate sequence starts: the orchestrator's initial
state after phases 1-2 delivered chunks and possibly errors. -/
def initialState (chunks : List Chunk) (earlyErrors : List String) :
    ComplianceState :=
  { chunks := chunks
    trust_check_passed := false
    trust_flags := []
    detected := []
    obligations := []
    canonical_obligations := []
    review_packages := []
    final_output := []
    errors := earlyErrors
    should_continue := true }

/-- The gate phase of graph.py lines 53-60: posture enforcer, privacy
scanner and the grounding-validator placeholder run unconditionally in
sequence; the conditional edge (check_should_continue, lines 57-60) is
evaluated on the resulting state. -/
def gateState (o : Oracles) (chunks : List Chunk)
    (earlyErrors : List String) : ComplianceState :=
  grounding_validator_agent
    (privacy_security_scanner o
      (regulatory_posture_enforcer o (initialState chunks earlyErrors)))

/-- The full run from the post-retrieval state: gates, then the conditional
edge, then the remaining stages. -/
def runPipeline (o : Oracles) (chunks : List Chunk)
    (earlyErrors : List String) : ComplianceState :=
  if (gateState o chunks earlyErrors).should_continue then
    safety_validator_and_packager o
      (applicability_analyzer o.app
        (normalization_agents o
          (atomic_extractor_and_scorer o
            (obligation_detection_agent o (gateState o chunks earlyErrors)))))
  else gateState o chunks earlyErrors

/-! ## Lemmas: decimal formatting is injective -/

theorem decodeDigit_digitChar : ∀ d, d < 10 → decodeDigit (Nat.digitChar d) = d := by
  decide

theorem foldl_decodeStep_shift (l : List Char) :
    ∀ a, l.foldl decodeStep a = a * 10 ^ l.length + decodeNum l := by
  induction l with
  | nil => intro a; simp [decodeNum]
  | cons c t ih =>
    intro a
    have h1 : (c :: t).foldl decodeStep a = t.foldl decodeStep (decodeStep a c) := rfl
    have h2 : decodeNum (c :: t) = t.foldl decodeStep (decodeStep 0 c) := rfl
    rw [h1, h2, ih (decodeStep a c), ih (decodeStep 0 c)]
    simp only [decodeStep, List.length_cons]
    ring

theorem decodeNum_append (l1 l2 : List Char) :
    decodeNum (l1 ++ l2) = decodeNum l1 * 10 ^ l2.length + decodeNum l2 := by
  have h : decodeNum (l1 ++ l2) = l2.foldl decodeStep (l1.foldl decodeStep 0) := by
    simp [decodeNum, decodeStep, List.foldl_append]
  rw [h, foldl_decodeStep_shift]
  rfl

theorem decodeNum_replicate_zero (k : Nat) :
    decodeNum (List.replicate k '0') = 0 := by
  induction k with
  | zero => rfl
  | succ m ih =>
    have h : decodeNum (List.replicate (m + 1) '0')
        = (List.replicate m '0').foldl decodeStep (decodeStep 0 '0') := rfl
    have hz : decodeStep 0 '0' = 0 := by decide
    rw [h, hz]
    exact ih

theorem decodeNum_pad4 (l : List Char) : decodeNum (pad4 l) = decodeNum l := by
  rw [pad4, decodeNum_append, decodeNum_replicate_zero]
  simp

theorem decodeNum_natReprAux : ∀ fuel n, n < fuel →
    decodeNum (natReprAux fuel n) = n := by
  intro fuel
  induction fuel with
  | zero => intro n hn; omega
  | succ f ih =>
    intro n hn
    by_cases h : n < 10
    · simp only [natReprAux, if_pos h]
      have : decodeNum [Nat.digitChar n] = decodeDigit (Nat.digitChar n) := by
        simp [decodeNum, decodeStep]
      rw [this, decodeDigit_digitChar n h]
    · simp only [natReprAux, if_neg h]
      rw [decodeNum_append]
      have hdiv : n / 10 < f := by omega
      rw [ih (n / 10) hdiv]
      have hm : decodeNum [Nat.digitChar (n % 10)] = n % 10 := by
        have : decodeNum [Nat.digitChar (n % 10)]
            = decodeDigit (Nat.digitChar (n % 10)) := by
          simp [decodeNum, decodeStep]
        rw [this, decodeDigit_digitChar (n % 10) (Nat.mod_lt n (by omega))]
      rw [hm]
      simp only [List.length_singleton, pow_one]
      omega

theorem decodeNum_natRepr (n : Nat) : decodeNum (natRepr n) = n :=
  decodeNum_natReprAux (n + 1) n (Nat.lt_succ_self n)

theorem oblId_injective : Function.Injective oblId := by
  intro a b hab
  have hdata : (oblId a).data = (oblId b).data := by rw [hab]
  simp only [oblId, String.data_append] at hdata
  have hl : pad4 (natRepr a) = pad4 (natRepr b) :=
    List.append_cancel_left hdata
  have := congrArg decodeNum hl
  rwa [decodeNum_pad4, decodeNum_pad4, decodeNum_natRepr, decodeNum_natRepr]
    at this

/-! ## Lemmas: post-batch id assignment -/

theorem assignIds_map_id : ∀ (k : Nat) (l : List EnterpriseObligation),
    (assignIds k l).map (·.obligation_id)
      = (List.range l.length).map (fun j => oblId (k + j)) := by
  intro k l
  induction l generalizing k with
  | nil => rfl
  | cons o t ih =>
    simp only [assignIds, List.map_cons, List.length_cons,
      List.range_succ_eq_map, List.map_map]
    refine congrArg₂ _ (by rw [Nat.add_zero]) ?_
    have hf : (fun j => oblId (k + 1 + j))
        = ((fun j => oblId (k + j)) ∘ Nat.succ) := by
      funext j
      simp only [Function.comp]
      exact congrArg oblId (by omega)
    rw [ih (k + 1), hf]

theorem assignIds_ids_nodup (k : Nat) (l : List EnterpriseObligation) :
    ((assignIds k l).map (·.obligation_id)).Nodup := by
  rw [assignIds_map_id]
  refine List.Nodup.map ?_ (List.nodup_range _)
  intro x y hxy
  have := oblId_injective hxy
  omega

theorem assignIds_length (k : Nat) (l : List EnterpriseObligation) :
    (assignIds k l).length = l.length := by
  induction l generalizing k with
  | nil => rfl
  | cons o t ih => simp [assignIds, ih]

/-- C4.  After the atomic extraction and scoring stage, whatever the chunks,
the detected records and the per-item call outcomes (including arbitrarily
many failed items, which contribute nothing), the obligation ids of the
produced batch are exactly OBL-0001, OBL-0002, ... in position order — a
contiguous, gap-free sequence starting at 1 — and they are pairwise
distinct.  Ids are a pure function of final position, assigned by assignIds
only after the whole batch has been collected. -/
theorem c4_atomic_ids_sequential_unique (o : Oracles) (st : ComplianceState) :
    ((atomic_extractor_and_scorer o st).obligations.map (·.obligation_id)
        = (List.range
            (atomic_extractor_and_scorer o st).obligations.length).map
            (fun j => oblId (1 + j)))
    ∧ ((atomic_extractor_and_scorer o st).obligations.map
        (·.obligation_id)).Nodup := by
  have hob : (atomic_extractor_and_scorer o st).obligations
      = assignIds 1 (((enumFrom 1 (st.detected.take 100)).map (fun p =>
          process_obligation o st.chunks p.1 p.2)).flatten) := rfl
  constructor
  · rw [hob, assignIds_map_id, assignIds_length]
  · rw [hob]; exact assignIds_ids_nodup 1 _

/-! ## Lemmas: pythonMax computes the maximum of a non-empty list -/

theorem foldl_max2_eq_or_mem : ∀ (xs : List ℚ) (a : ℚ),
    xs.foldl max2 a = a ∨ xs.foldl max2 a ∈ xs := by
  intro xs
  induction xs with
  | nil => intro a; exact Or.inl rfl
  | cons x t ih =>
    intro a
    have h := ih (max2 a x)
    rcases h with h | h
    · rw [List.foldl_cons, h]
      unfold max2
      split
      · exact Or.inr (List.mem_cons_self x t)
      · exact Or.inl rfl
    · exact Or.inr (List.mem_cons_of_mem x h)

theorem le_foldl_max2 : ∀ (xs : List ℚ) (a : ℚ), a ≤ xs.foldl max2 a := by
  intro xs
  induction xs with
  | nil => intro a; exact le_refl a
  | cons x t ih =>
    intro a
    refine le_trans ?_ (ih (max2 a x))
    unfold max2
    split
    · exact le_of_lt (by assumption)
    · exact le_refl a

theorem mem_le_foldl_max2 : ∀ (xs : List ℚ) (a y : ℚ),
    y ∈ xs → y ≤ xs.foldl max2 a := by
  intro xs
  induction xs with
  | nil => intro a y hy; exact absurd hy (List.not_mem_nil y)
  | cons x t ih =>
    intro a y hy
    rcases List.mem_cons.mp hy with h | h
    · subst h
      refine le_trans ?_ (le_foldl_max2 t (max2 a y))
      unfold max2
      split
      · exact le_refl y
      · exact le_of_not_lt (by assumption)
    · exact ih (max2 a x) y h

theorem pythonMax_mem (x : ℚ) (xs : List ℚ) :
    pythonMax (x :: xs) ∈ x :: xs := by
  rcases foldl_max2_eq_or_mem xs x with h | h
  · rw [pythonMax, h]; exact List.mem_cons_self x xs
  · rw [pythonMax]; exact List.mem_cons_of_mem x h

theorem pythonMax_is_ub (x : ℚ) (xs : List ℚ) :
    ∀ y ∈ x :: xs, y ≤ pythonMax (x :: xs) := by
  intro y hy
  rcases List.mem_cons.mp hy with h | h
  · subst h; exact le_foldl_max2 xs y
  · exact mem_le_foldl_max2 xs x y h

/-! ## Claim C7: merged confidence is the maximum over the cluster -/

/-- C7.  Whenever the canonical synthesizer merges a cluster of two or more
obligations (the synthesis call succeeded, should_merge is true, and the
returned citation list is non-empty so that the merge branch completes),
process_cluster produces exactly one canonical obligation and its
confidence_score is the maximum of the confidence_scores of the cluster
members: it is one of the member scores and no member score exceeds it.
This is the max-not-average invariant of the spec. -/
theorem c7_merged_confidence_is_max (obligations : List EnterpriseObligation)
    (s : CanonicalSynthesis) (cluster_idx i j : Nat) (rest : List Nat)
    (hs : s.should_merge = true)
    (g : SourceGrounding) (gs : List SourceGrounding)
    (hcit : s.all_source_citations = g :: gs) :
    ∃ can, process_cluster obligations (.ok s) cluster_idx (i :: j :: rest)
        = [can]
      ∧ can.confidence_score ∈ (((i :: j :: rest).map
          (fun k => obligations.getD k defaultObligation)).map
          (·.confidence_score))
      ∧ ∀ y ∈ (((i :: j :: rest).map
          (fun k => obligations.getD k defaultObligation)).map
          (·.confidence_score)),
          y ≤ can.confidence_score := by
  simp only [process_cluster, hs, hcit, if_true]
  refine ⟨_, rfl, ?_, ?_⟩
  · exact pythonMax_mem _ _
  · exact pythonMax_is_ub _ _

/-- Witness for c7_merged_confidence_is_max at a concrete two-member
cluster with scores 0.7 and 0.95. -/
theorem c7_merged_confidence_is_max_witness :
    ∃ can,
      process_cluster
        [{ defaultObligation with confidence_score := mkRat 7 10 },
         { defaultObligation with confidence_score := mkRat 95 100 }]
        (.ok { should_merge := true, canonical_statement := "canonical"
               strictest_standard := none
               all_source_citations := [defaultObligation.source_grounding]
               merged_obligation_ids := [], synthesis_reasoning := ""
               confidence_level := ConfidenceLevel.HIGH
               over_normalization_check := "" }) 1 [0, 1]
        = [can]
      ∧ can.confidence_score ∈ (([0, 1].map (fun k =>
          ([{ defaultObligation with confidence_score := mkRat 7 10 },
             { defaultObligation with confidence_score := mkRat 95 100 }]).getD
            k defaultObligation)).map (·.confidence_score))
      ∧ ∀ y ∈ (([0, 1].map (fun k =>
          ([{ defaultObligation with confidence_score := mkRat 7 10 },
             { defaultObligation with confidence_score := mkRat 95 100 }]).getD
            k defaultObligation)).map (·.confidence_score)),
          y ≤ can.confidence_score :=
  c7_merged_confidence_is_max
    [{ defaultObligation with confidence_score := mkRat 7 10 },
     { defaultObligation with confidence_score := mkRat 95 100 }]
    { should_merge := true, canonical_statement := "canonical"
      strictest_standard := none
      all_source_citations := [defaultObligation.source_grounding]
      merged_obligation_ids := [], synthesis_reasoning := ""
      confidence_level := ConfidenceLevel.HIGH
      over_normalization_check := "" }
    1 0 1 [] rfl defaultObligation.source_grounding [] rfl

/-! ## Claim C8: failed or refused synthesis passes members through -/

/-- C8.  For any cluster: a size-1 cluster returns its single member for
every possible synthesis outcome (so the synthesis call is irrelevant to
it, matching the early return before the chain is invoked); for a cluster
of two or more members, a raised synthesis call, or a successful call with
should_merge false, passes every member through unchanged, in order —
no obligation is dropped and each keeps its original identity. -/
theorem c8_pass_through_on_refusal_or_failure
    (obligations : List EnterpriseObligation)
    (synth : Except String CanonicalSynthesis) (e : String)
    (s : CanonicalSynthesis) (cluster_idx k i j : Nat) (rest : List Nat) :
    (process_cluster obligations synth cluster_idx [k]
        = [obligations.getD k defaultObligation])
    ∧ (process_cluster obligations (.error e) cluster_idx (i :: j :: rest)
        = (i :: j :: rest).map (fun m => obligations.getD m defaultObligation))
    ∧ (s.should_merge = false →
        process_cluster obligations (.ok s) cluster_idx (i :: j :: rest)
          = (i :: j :: rest).map
              (fun m => obligations.getD m defaultObligation)) := by
  refine ⟨rfl, rfl, fun hs => ?_⟩
  simp only [process_cluster, hs, Bool.false_eq_true, if_false]

/-- Witness for c8_pass_through_on_refusal_or_failure on a concrete
two-obligation list, discharging the should_merge = false hypothesis. -/
theorem c8_pass_through_witness :
    (process_cluster [defaultObligation] (.error "boom") 1 [0]
        = [([defaultObligation]).getD 0 defaultObligation])
    ∧ (process_cluster [defaultObligation] (.error "boom") 1 [0, 1]
        = [0, 1].map (fun m => ([defaultObligation]).getD m defaultObligation))
    ∧ ((({ should_merge := false, canonical_statement := ""
           strictest_standard := none, all_source_citations := []
           merged_obligation_ids := [], synthesis_reasoning := ""
           confidence_level := ConfidenceLevel.LOW
           over_normalization_check := "" : CanonicalSynthesis}).should_merge
            = false) →
        process_cluster [defaultObligation]
          (.ok { should_merge := false, canonical_statement := ""
                 strictest_standard := none, all_source_citations := []
                 merged_obligation_ids := [], synthesis_reasoning := ""
                 confidence_level := ConfidenceLevel.LOW
                 over_normalization_check := "" }) 1 [0, 1]
          = [0, 1].map (fun m => ([defaultObligation]).getD m defaultObligation)) :=
  c8_pass_through_on_refusal_or_failure [defaultObligation] (.error "boom")
    "boom"
    { should_merge := false, canonical_statement := ""
      strictest_standard := none, all_source_citations := []
      merged_obligation_ids := [], synthesis_reasoning := ""
      confidence_level := ConfidenceLevel.LOW
      over_normalization_check := "" }
    1 0 0 1 []

/-! ## Claim C1: the merge branch stores only the first citation

The synthesis prompt of normalization.py (rules 3 and 5: MAINTAIN ALL
SOURCE CITATIONS, NO INFORMATION LOSS) and the CanonicalSynthesis output
model carry the full citation list, but the constructed canonical
EnterpriseObligation stores only all_source_citations[0] (normalization.py
line 149, comment Primary), so every other member citation is dropped from
the merged record. -/

/-- First member obligation of the C1 failing input. -/
def c1OblA : EnterpriseObligation :=
  { defaultObligation with
    obligation_id := "OBL-0001"
    obligation_statement := "Must hold an Australian Credit Licence."
    source_grounding :=
      { regulator := "ASIC", legal_instrument := "NCCP Act 2009"
        section_clause := "s 29"
        verbatim_excerpt := "A person must not engage in a credit activity unless licensed." }
    confidence_score := mkRat 95 100 }

/-- Second member obligation of the C1 failing input; its citation differs
from the first member's in the section clause. -/
def c1OblB : EnterpriseObligation :=
  { defaultObligation with
    obligation_id := "OBL-0002"
    obligation_statement := "Must hold an Australian Credit Licence."
    source_grounding :=
      { regulator := "ASIC", legal_instrument := "RG 206"
        section_clause := "RG 206.7"
        verbatim_excerpt := "Credit activities require an Australian credit licence under the National Credit Act." }
    confidence_score := mkRat 9 10 }

/-- The synthesis result for the C1 failing input: the synthesizer agrees to
merge and returns both citations, as its output contract requires. -/
def c1Synth : CanonicalSynthesis :=
  { should_merge := true
    canonical_statement := "Must hold an Australian Credit Licence."
    strictest_standard := none
    all_source_citations := [c1OblA.source_grounding, c1OblB.source_grounding]
    merged_obligation_ids := ["OBL-0001", "OBL-0002"]
    synthesis_reasoning := "same subject, same trigger"
    confidence_level := ConfidenceLevel.HIGH
    over_normalization_check := "passed" }

/-- C1, refutation on the code.  On a merged two-member cluster whose
members carry distinct citations, and whose synthesis output lists both
citations, the canonical obligation produced by process_cluster carries
only the first citation: the second member's citation appears nowhere in
the source grounding of the merged output, so a citation IS lost by
merging.  (The member ids are retained in source_obligation_ids, but the
citation itself is gone from the canonical record.) -/
theorem c1_merge_drops_citation_eval :
    c1Synth.should_merge = true
    ∧ c1Synth.all_source_citations
        = [c1OblA.source_grounding, c1OblB.source_grounding]
    ∧ c1OblB.source_grounding ≠ c1OblA.source_grounding
    ∧ ((process_cluster [c1OblA, c1OblB] (.ok c1Synth) 1 [0, 1]).map
        (·.source_grounding)) = [c1OblA.source_grounding]
    ∧ c1OblB.source_grounding ∉
        ((process_cluster [c1OblA, c1OblB] (.ok c1Synth) 1 [0, 1]).map
          (·.source_grounding)) := by
  refine ⟨rfl, rfl, by decide, rfl, by decide⟩

/-! ## Lemmas: the inner absorption loop of the clusterer -/

theorem absorbGo_fst_sublist (sim : Nat → Nat → ℚ) (t : ℚ) (i : Nat) :
    ∀ (js a : List Nat), List.Sublist (absorbGo sim t i js a).1 js := by
  intro js
  induction js with
  | nil => intro a; simp [absorbGo]
  | cons j js ih =>
    intro a
    by_cases h1 : j ∈ a
    · simp only [absorbGo, if_pos h1]
      exact (ih a).cons j
    · by_cases h2 : t ≤ sim i j
      · simp only [absorbGo, if_neg h1, if_pos h2]
        exact (ih (j :: a)).cons₂ j
      · simp only [absorbGo, if_neg h1, if_neg h2]
        exact (ih a).cons j

theorem absorbGo_fst_spec (sim : Nat → Nat → ℚ) (t : ℚ) (i : Nat) :
    ∀ (js a : List Nat), ∀ x ∈ (absorbGo sim t i js a).1,
      x ∉ a ∧ t ≤ sim i x := by
  intro js
  induction js with
  | nil => intro a x hx; simp [absorbGo] at hx
  | cons j js ih =>
    intro a x hx
    by_cases h1 : j ∈ a
    · exact ih a x (by simpa only [absorbGo, if_pos h1] using hx)
    · by_cases h2 : t ≤ sim i j
      · simp only [absorbGo, if_neg h1, if_pos h2] at hx
        rcases List.mem_cons.mp hx with h | h
        · subst h; exact ⟨h1, h2⟩
        · have := ih (j :: a) x h
          exact ⟨fun hxa => this.1 (List.mem_cons_of_mem j hxa), this.2⟩
      · exact ih a x (by simpa only [absorbGo, if_neg h1, if_neg h2] using hx)

theorem absorbGo_snd_mem (sim : Nat → Nat → ℚ) (t : ℚ) (i : Nat) :
    ∀ (js a : List Nat) (x : Nat),
      x ∈ (absorbGo sim t i js a).2
        ↔ x ∈ (absorbGo sim t i js a).1 ∨ x ∈ a := by
  intro js
  induction js with
  | nil => intro a x; simp [absorbGo]
  | cons j js ih =>
    intro a x
    by_cases h1 : j ∈ a
    · simp only [absorbGo, if_pos h1]
      exact ih a x
    · by_cases h2 : t ≤ sim i j
      · simp only [absorbGo, if_neg h1, if_pos h2]
        rw [ih (j :: a) x]
        simp only [List.mem_cons]
        tauto
      · simp only [absorbGo, if_neg h1, if_neg h2]
        exact ih a x

theorem absorbGo_complete (sim : Nat → Nat → ℚ) (t : ℚ) (i : Nat) :
    ∀ (js a : List Nat) (x : Nat), x ∈ js → x ∉ a → t ≤ sim i x →
      x ∈ (absorbGo sim t i js a).1 := by
  intro js
  induction js with
  | nil => intro a x hx; simp at hx
  | cons j js ih =>
    intro a x hx hxa hsim
    by_cases hxj : x = j
    · subst hxj
      simp only [absorbGo, if_neg hxa, if_pos hsim]
      exact List.mem_cons_self x _
    · have hxs : x ∈ js := by
        rcases List.mem_cons.mp hx with h | h
        · exact absurd h hxj
        · exact h
      by_cases h1 : j ∈ a
      · simp only [absorbGo, if_pos h1]
        exact ih a x hxs hxa hsim
      · by_cases h2 : t ≤ sim i j
        · simp only [absorbGo, if_neg h1, if_pos h2]
          refine List.mem_cons_of_mem j ?_
          refine ih (j :: a) x hxs ?_ hsim
          intro hmem
          rcases List.mem_cons.mp hmem with h | h
          · exact hxj h
          · exact hxa h
        · simp only [absorbGo, if_neg h1, if_neg h2]
          exact ih a x hxs hxa hsim

/-! ## Lemmas: the outer loop of the clusterer -/

theorem clusterGo_cons_skip (sim : Nat → Nat → ℚ) (t : ℚ) (i : Nat)
    (rest a : List Nat) (hi : i ∈ a) :
    clusterGo sim t (i :: rest) a = clusterGo sim t rest a := by
  simp only [clusterGo, if_pos hi]

theorem clusterGo_cons_seed (sim : Nat → Nat → ℚ) (t : ℚ) (i : Nat)
    (rest a : List Nat) (hi : i ∉ a) :
    clusterGo sim t (i :: rest) a
      = (i :: (absorbGo sim t i rest (i :: a)).1)
          :: clusterGo sim t rest (absorbGo sim t i rest (i :: a)).2 := by
  simp only [clusterGo, if_neg hi]

theorem clusterGo_flatten_mem (sim : Nat → Nat → ℚ) (t : ℚ) :
    ∀ (todo a : List Nat) (x : Nat),
      x ∈ (clusterGo sim t todo a).flatten ↔ (x ∈ todo ∧ x ∉ a) := by
  intro todo
  induction todo with
  | nil => intro a x; simp [clusterGo]
  | cons i rest ih =>
    intro a x
    by_cases hi : i ∈ a
    · simp only [clusterGo, if_pos hi]
      rw [ih a x]
      simp only [List.mem_cons]
      constructor
      · rintro ⟨hr, hna⟩; exact ⟨Or.inr hr, hna⟩
      · rintro ⟨hx, hna⟩
        rcases hx with h | h
        · subst h; exact absurd hi hna
        · exact ⟨h, hna⟩
    · rw [clusterGo_cons_seed sim t i rest a hi]
      simp only [List.flatten_cons, List.mem_append, List.mem_cons]
      rw [ih (absorbGo sim t i rest (i :: a)).2 x]
      constructor
      · rintro (⟨h | h⟩ | ⟨hr, hn2⟩)
        · subst h; exact ⟨Or.inl rfl, hi⟩
        · have hspec := absorbGo_fst_spec sim t i rest (i :: a) x h
          have hrest := (absorbGo_fst_sublist sim t i rest (i :: a)).subset h
          exact ⟨Or.inr hrest,
            fun hxa => hspec.1 (List.mem_cons_of_mem i hxa)⟩
        · refine ⟨Or.inr hr, fun hxa => hn2 ?_⟩
          rw [absorbGo_snd_mem]
          exact Or.inr (List.mem_cons_of_mem i hxa)
      · rintro ⟨hx, hna⟩
        rcases hx with h | h
        · subst h; exact Or.inl (Or.inl rfl)
        · by_cases h2 : x ∈ (absorbGo sim t i rest (i :: a)).2
          · rw [absorbGo_snd_mem] at h2
            rcases h2 with h2 | h2
            · exact Or.inl (Or.inr h2)
            · rcases List.mem_cons.mp h2 with h3 | h3
              · exact Or.inl (Or.inl h3)
              · exact absurd h3 hna
          · exact Or.inr ⟨h, h2⟩

theorem clusterGo_flatten_nodup (sim : Nat → Nat → ℚ) (t : ℚ) :
    ∀ (todo a : List Nat), todo.Nodup →
      (clusterGo sim t todo a).flatten.Nodup := by
  intro todo
  induction todo with
  | nil => intro a _; simp [clusterGo]
  | cons i rest ih =>
    intro a hnd
    have hrest : rest.Nodup := (List.nodup_cons.mp hnd).2
    have hirest : i ∉ rest := (List.nodup_cons.mp hnd).1
    by_cases hi : i ∈ a
    · simp only [clusterGo, if_pos hi]
      exact ih a hrest
    · rw [clusterGo_cons_seed sim t i rest a hi]
      simp only [List.flatten_cons]
      rw [List.nodup_append]
      refine ⟨?_, ih (absorbGo sim t i rest (i :: a)).2 hrest, ?_⟩
      · rw [List.nodup_cons]
        refine ⟨fun hmem => ?_, ?_⟩
        · exact (absorbGo_fst_spec sim t i rest (i :: a) i hmem).1
            (List.mem_cons_self i a)
        · exact (absorbGo_fst_sublist sim t i rest (i :: a)).nodup hrest
      · intro x hx1 hx2
        have hx2n := (clusterGo_flatten_mem sim t rest
          (absorbGo sim t i rest (i :: a)).2 x).mp hx2
        refine hx2n.2 ?_
        rw [absorbGo_snd_mem]
        rcases List.mem_cons.mp hx1 with h | h
        · exact Or.inr (h ▸ List.mem_cons_self i a)
        · exact Or.inl h

theorem clusterGo_seed_structure (sim : Nat → Nat → ℚ) (t : ℚ) :
    ∀ (todo a : List Nat), todo.Pairwise (· < ·) →
      ∀ c ∈ clusterGo sim t todo a,
        ∃ s tail, c = s :: tail ∧ ∀ j ∈ tail, s < j ∧ t ≤ sim s j := by
  intro todo
  induction todo with
  | nil => intro a _ c hc; simp [clusterGo] at hc
  | cons i rest ih =>
    intro a hp c hc
    have hlt : ∀ j ∈ rest, i < j := fun j hj =>
      List.rel_of_pairwise_cons hp hj
    have hrest : rest.Pairwise (· < ·) := hp.of_cons
    by_cases hi : i ∈ a
    · rw [clusterGo_cons_skip sim t i rest a hi] at hc
      exact ih a hrest c hc
    · rw [clusterGo_cons_seed sim t i rest a hi] at hc
      rcases List.mem_cons.mp hc with h | h
      · refine ⟨i, (absorbGo sim t i rest (i :: a)).1, h, fun j hj => ?_⟩
        have hjr := (absorbGo_fst_sublist sim t i rest (i :: a)).subset hj
        exact ⟨hlt j hjr, (absorbGo_fst_spec sim t i rest (i :: a) j hj).2⟩
      · exact ih _ hrest c h

theorem clusterGo_seed_complete (sim : Nat → Nat → ℚ) (t : ℚ) :
    ∀ (todo a : List Nat), todo.Pairwise (· < ·) →
      ∀ c ∈ clusterGo sim t todo a, ∀ s tail, c = s :: tail →
        ∀ x, x ∈ todo → x ∉ a → s < x → t ≤ sim s x →
          x ∈ c ∨ ∃ c2 s2 tail2, c2 ∈ clusterGo sim t todo a
            ∧ c2 = s2 :: tail2 ∧ s2 < s ∧ x ∈ c2 := by
  intro todo
  induction todo with
  | nil => intro a _ c hc; simp [clusterGo] at hc
  | cons i rest ih =>
    intro a hp c hc s tail hctail x hx hxa hsx hsim
    have hlt : ∀ j ∈ rest, i < j := fun j hj =>
      List.rel_of_pairwise_cons hp hj
    have hrest : rest.Pairwise (· < ·) := hp.of_cons
    by_cases hi : i ∈ a
    · -- the head index is already assigned; everything reduces to rest
      rw [clusterGo_cons_skip sim t i rest a hi] at hc ⊢
      have hxr : x ∈ rest := by
        rcases List.mem_cons.mp hx with h | h
        · exact absurd (h ▸ hi) hxa
        · exact h
      exact ih a hrest c hc s tail hctail x hxr hxa hsx hsim
    · rw [clusterGo_cons_seed sim t i rest a hi] at hc ⊢
      rcases List.mem_cons.mp hc with h | h
      · -- c is the cluster seeded at i, so s = i and absorption is complete
        obtain ⟨hsi, htail⟩ :=
          List.cons_eq_cons.mp (hctail.symm.trans h)
        subst hsi
        have hxi : x ≠ s := fun he => by omega
        have hxr : x ∈ rest := by
          rcases List.mem_cons.mp hx with h2 | h2
          · exact absurd h2 hxi
          · exact h2
        have hxia : x ∉ s :: a := by
          intro hmem
          rcases List.mem_cons.mp hmem with h2 | h2
          · exact hxi h2
          · exact hxa h2
        have habs := absorbGo_complete sim t s rest (s :: a) x hxr hxia hsim
        refine Or.inl ?_
        rw [hctail, htail]
        exact List.mem_cons_of_mem s habs
      · -- c is a later cluster; its seed lies in rest, hence above i
        have hcflat : s ∈ (clusterGo sim t rest
            (absorbGo sim t i rest (i :: a)).2).flatten := by
          refine List.mem_flatten.mpr ⟨c, h, ?_⟩
          rw [hctail]; exact List.mem_cons_self s tail
        have hsrest := (clusterGo_flatten_mem sim t rest _ s).mp hcflat
        have his : i < s := hlt s hsrest.1
        by_cases hxi : x = i
        · -- x is the head seed itself, already in the first (earlier) cluster
          refine Or.inr ⟨i :: (absorbGo sim t i rest (i :: a)).1, i, _,
            List.mem_cons_self _ _, rfl, his, ?_⟩
          rw [hxi]; exact List.mem_cons_self i _
        · have hxr : x ∈ rest := by
            rcases List.mem_cons.mp hx with h2 | h2
            · exact absurd h2 hxi
            · exact h2
          by_cases hx2 : x ∈ (absorbGo sim t i rest (i :: a)).2
          · -- x was absorbed into the first cluster, whose seed i < s
            rw [absorbGo_snd_mem] at hx2
            have hxabs : x ∈ (absorbGo sim t i rest (i :: a)).1 := by
              rcases hx2 with h2 | h2
              · exact h2
              · rcases List.mem_cons.mp h2 with h3 | h3
                · exact absurd h3 hxi
                · exact absurd h3 hxa
            exact Or.inr ⟨i :: (absorbGo sim t i rest (i :: a)).1, i, _,
              List.mem_cons_self _ _, rfl, his, List.mem_cons_of_mem i hxabs⟩
          · rcases ih (absorbGo sim t i rest (i :: a)).2 hrest c h s tail
              hctail x hxr hx2 hsx hsim with h2 | h2
            · exact Or.inl h2
            · rcases h2 with ⟨c2, s2, tail2, hc2, he, hs2, hxc2⟩
              exact Or.inr ⟨c2, s2, tail2, List.mem_cons_of_mem _ hc2,
                he, hs2, hxc2⟩

/-! ## Claim C5: the clusterer returns a seed-based partition -/

/-- C5.  For every obligation list and similarity matrix,
cluster_similar_obligations returns a partition of the index set: no index
occurs twice across the clusters, and the indices occurring are exactly
those below the list length (so every obligation index is in exactly one
cluster).  Moreover every cluster consists of a seed followed by strictly
later indices whose similarity TO THE SEED is at least the threshold, and
the absorption is complete: any index x below the length that is later
than a cluster seed s and similar to s belongs to that very cluster unless
it was already taken by a cluster with an earlier (smaller) seed. -/
theorem c5_clusterer_is_partition (sim : Nat → Nat → ℚ) (t : ℚ)
    (obligations : List EnterpriseObligation) :
    ((cluster_similar_obligations sim obligations t).flatten.Nodup)
    ∧ (∀ x, x ∈ (cluster_similar_obligations sim obligations t).flatten
        ↔ x < obligations.length)
    ∧ (∀ c ∈ cluster_similar_obligations sim obligations t,
        ∃ s tail, c = s :: tail ∧ ∀ j ∈ tail, s < j ∧ t ≤ sim s j)
    ∧ (∀ c ∈ cluster_similar_obligations sim obligations t,
        ∀ s tail, c = s :: tail →
          ∀ x, x < obligations.length → s < x → t ≤ sim s x →
            x ∈ c ∨ ∃ c2 s2 tail2,
              c2 ∈ cluster_similar_obligations sim obligations t
              ∧ c2 = s2 :: tail2 ∧ s2 < s ∧ x ∈ c2) := by
  by_cases hlen : obligations.length < 2
  · -- degenerate branches of the source: [] or [[0]]
    rcases obligations with _ | ⟨o1, tl⟩
    · refine ⟨by simp [cluster_similar_obligations], ?_, ?_, ?_⟩
      · intro x; simp [cluster_similar_obligations]
      · intro c hc; simp [cluster_similar_obligations] at hc
      · intro c hc; simp [cluster_similar_obligations] at hc
    · have htl : tl = [] := by
        cases tl with
        | nil => rfl
        | cons b tb => exact absurd hlen (by simp only [List.length_cons]; omega)
      subst htl
      have hC : cluster_similar_obligations sim [o1] t = [[0]] := rfl
      rw [hC]
      refine ⟨by simp, ?_, ?_, ?_⟩
      · intro x
        simp only [List.flatten, List.append_nil, List.mem_singleton,
          List.length_singleton]
        omega
      · intro c hc
        rw [List.mem_singleton] at hc
        exact ⟨0, [], hc, by intro j hj; simp at hj⟩
      · intro c hc s tail hctail x hx hsx hsim
        rw [List.mem_singleton] at hc
        rw [hc] at hctail
        obtain ⟨hs, -⟩ := List.cons_eq_cons.mp hctail.symm
        omega
  · have hC : cluster_similar_obligations sim obligations t
        = clusterGo sim t (List.range obligations.length) [] := by
      simp only [cluster_similar_obligations, if_neg hlen]
    rw [hC]
    have hpw : (List.range obligations.length).Pairwise (· < ·) :=
      List.pairwise_lt_range _
    refine ⟨clusterGo_flatten_nodup sim t _ [] (List.nodup_range _),
      ?_, ?_, ?_⟩
    · intro x
      rw [clusterGo_flatten_mem]
      simp [List.mem_range]
    · exact fun c hc => clusterGo_seed_structure sim t _ [] hpw c hc
    · intro c hc s tail hctail x hx hsx hsim
      exact clusterGo_seed_complete sim t _ [] hpw c hc s tail hctail x
        (List.mem_range.mpr hx) (List.not_mem_nil x) hsx hsim

/-- Witness for c5_clusterer_is_partition on two obligations with constant
similarity 1 (above the 0.85 threshold): index 0 is in the clustering, and
the single cluster [0, 1] has seed 0 with its member 1 seed-similar. -/
theorem c5_clusterer_is_partition_witness :
    ((0 : Nat) ∈ (cluster_similar_obligations (fun _ _ => 1)
        [defaultObligation, defaultObligation] (mkRat 85 100)).flatten)
    ∧ (∃ s tail, ([0, 1] : List Nat) = s :: tail
        ∧ ∀ j ∈ tail, s < j ∧ (mkRat 85 100) ≤ (fun _ _ => (1 : ℚ)) s j) :=
  ⟨((c5_clusterer_is_partition (fun _ _ => 1) (mkRat 85 100)
      [defaultObligation, defaultObligation]).2.1 0).mpr (by decide),
   (c5_clusterer_is_partition (fun _ _ => 1) (mkRat 85 100)
      [defaultObligation, defaultObligation]).2.2.1 [0, 1] (by decide)⟩

/-! ## Claim C6: clustering is deterministic in the embeddings -/

theorem absorbGo_congr (sim1 sim2 : Nat → Nat → ℚ) (t : ℚ) (i : Nat) :
    ∀ (js a : List Nat), (∀ j ∈ js, sim1 i j = sim2 i j) →
      absorbGo sim1 t i js a = absorbGo sim2 t i js a := by
  intro js
  induction js with
  | nil => intro a _; rfl
  | cons j js ih =>
    intro a h
    have he : sim1 i j = sim2 i j := h j (List.mem_cons_self j js)
    have hw : ∀ m ∈ js, sim1 i m = sim2 i m := fun m hm =>
      h m (List.mem_cons_of_mem j hm)
    by_cases h1 : j ∈ a
    · simp only [absorbGo, if_pos h1]
      exact ih a hw
    · by_cases h2 : t ≤ sim2 i j
      · simp only [absorbGo, if_neg h1, he, if_pos h2, ih (j :: a) hw]
      · simp only [absorbGo, if_neg h1, he, if_neg h2, ih a hw]

theorem clusterGo_congr (sim1 sim2 : Nat → Nat → ℚ) (t : ℚ) :
    ∀ (todo a : List Nat),
      (∀ i ∈ todo, ∀ j ∈ todo, sim1 i j = sim2 i j) →
      clusterGo sim1 t todo a = clusterGo sim2 t todo a := by
  intro todo
  induction todo with
  | nil => intro a _; rfl
  | cons i rest ih =>
    intro a h
    have hw : ∀ m ∈ rest, ∀ j ∈ rest, sim1 m j = sim2 m j := fun m hm j hj =>
      h m (List.mem_cons_of_mem i hm) j (List.mem_cons_of_mem i hj)
    by_cases hi : i ∈ a
    · rw [clusterGo_cons_skip sim1 t i rest a hi,
        clusterGo_cons_skip sim2 t i rest a hi]
      exact ih a hw
    · have habs : absorbGo sim1 t i rest (i :: a)
          = absorbGo sim2 t i rest (i :: a) :=
        absorbGo_congr sim1 sim2 t i rest (i :: a) (fun j hj =>
          h i (List.mem_cons_self i rest) j (List.mem_cons_of_mem i hj))
      rw [clusterGo_cons_seed sim1 t i rest a hi,
        clusterGo_cons_seed sim2 t i rest a hi, habs,
        ih (absorbGo sim2 t i rest (i :: a)).2 hw]

/-- C6.  Clustering is deterministic and order-stable: its output is a pure
function of the similarity values of the obligation indices (i.e. of the
embedding outputs) — two similarity matrices that agree on all index pairs
below the list length produce exactly the same cluster partition for the
same input list, at every threshold.  In particular re-running the
clusterer on the same embeddings and input order yields the same
partition. -/
theorem c6_clustering_deterministic (sim1 sim2 : Nat → Nat → ℚ) (t : ℚ)
    (obligations : List EnterpriseObligation)
    (h : ∀ i, i < obligations.length → ∀ j, j < obligations.length →
      sim1 i j = sim2 i j) :
    cluster_similar_obligations sim1 obligations t
      = cluster_similar_obligations sim2 obligations t := by
  by_cases hlen : obligations.length < 2
  · simp only [cluster_similar_obligations, if_pos hlen]
  · simp only [cluster_similar_obligations, if_neg hlen]
    exact clusterGo_congr sim1 sim2 t (List.range obligations.length) []
      (fun i hi j hj =>
        h i (List.mem_range.mp hi) j (List.mem_range.mp hj))

/-- Witness for c6_clustering_deterministic: two matrices that agree on the
index square below 2 (but differ elsewhere) cluster two obligations
identically. -/
theorem c6_clustering_deterministic_witness :
    cluster_similar_obligations (fun i j => if i + j ≤ 2 then 1 else 0)
        [defaultObligation, defaultObligation] (mkRat 85 100)
      = cluster_similar_obligations (fun _ _ => 1)
        [defaultObligation, defaultObligation] (mkRat 85 100) :=
  c6_clustering_deterministic (fun i j => if i + j ≤ 2 then 1 else 0)
    (fun _ _ => 1) (mkRat 85 100) [defaultObligation, defaultObligation]
    (by decide)

/-! ## Claim C9: the applicability batch is capped, never truncating -/

theorem appMap_length (app : Nat → Except String ApplicabilityAnalysis) :
    ∀ (k : Nat) (l : List EnterpriseObligation),
      (appMap app k l).length = l.length := by
  intro k l
  induction l generalizing k with
  | nil => rfl
  | cons o t ih => simp [appMap, ih]

theorem appMap_getElem (app : Nat → Except String ApplicabilityAnalysis) :
    ∀ (k : Nat) (l : List EnterpriseObligation) (i : Nat),
      (appMap app k l)[i]? = (l[i]?).map (fun o =>
        match app (k + i) with
        | .ok a => applyAnalysis o a
        | .error _ => o) := by
  intro k l
  induction l generalizing k with
  | nil => intro i; simp [appMap]
  | cons o t ih =>
    intro i
    cases i with
    | zero => simp [appMap]
    | succ m =>
      simp only [appMap, List.getElem?_cons_succ]
      rw [ih (k + 1) m]
      have : k + 1 + m = k + (m + 1) := by omega
      rw [this]

/-- Master description of the applicability stage output at index i: within
the cap the item is updated iff its analysis call succeeded, beyond the cap
it is passed through untouched. -/
theorem applicability_analyzer_getElem
    (app : Nat → Except String ApplicabilityAnalysis) (st : ComplianceState)
    (i : Nat) :
    ((applicability_analyzer app st).canonical_obligations)[i]?
      = ((st.canonical_obligations)[i]?).map (fun o =>
          if i < 50 then
            match app (i + 1) with
            | .ok a => applyAnalysis o a
            | .error _ => o
          else o) := by
  have hout : (applicability_analyzer app st).canonical_obligations
      = appMap app 1 (st.canonical_obligations.take 50)
          ++ st.canonical_obligations.drop 50 := rfl
  rw [hout]
  by_cases h1 : i < (st.canonical_obligations.take 50).length
  · have hi50 : i < 50 := by
      have := st.canonical_obligations.length_take 50
      omega
    rw [List.getElem?_append_left (by rw [appMap_length]; exact h1)]
    rw [appMap_getElem]
    rw [List.getElem?_take_of_lt hi50]
    have hadd : 1 + i = i + 1 := by omega
    rw [hadd]
    cases st.canonical_obligations[i]? with
    | none => rfl
    | some o => simp [hi50]
  · have hlen : (st.canonical_obligations.take 50).length ≤ i := by omega
    rw [List.getElem?_append_right (by rw [appMap_length]; exact hlen)]
    rw [appMap_length, List.getElem?_drop]
    have htake := st.canonical_obligations.length_take 50
    by_cases h2 : st.canonical_obligations.length ≤ i
    · rw [List.getElem?_eq_none (by omega),
        List.getElem?_eq_none h2]
      rfl
    · have h50 : ¬ i < 50 := by omega
      have hidx : 50 + (i - (st.canonical_obligations.take 50).length) = i := by
        omega
      rw [hidx]
      cases st.canonical_obligations[i]? with
      | none => rfl
      | some o => simp [h50]

/-- C9.  The applicability analyzer operates on a bounded batch of the
first 50 canonical obligations: the output register has the same length as
the input (nothing truncated), every obligation at an index at or beyond
the cap is passed through completely unmodified, an in-cap obligation
whose analysis call raised keeps all its fields (it is returned unchanged),
and an in-cap obligation whose call succeeded is updated independently of
every other item — one bad item never blocks the rest. -/
theorem c9_applicability_capped_batch
    (app : Nat → Except String ApplicabilityAnalysis)
    (st : ComplianceState) :
    ((applicability_analyzer app st).canonical_obligations.length
        = st.canonical_obligations.length)
    ∧ (∀ i, 50 ≤ i →
        ((applicability_analyzer app st).canonical_obligations)[i]?
          = (st.canonical_obligations)[i]?)
    ∧ (∀ i e, i < 50 → app (i + 1) = .error e →
        ((applicability_analyzer app st).canonical_obligations)[i]?
          = (st.canonical_obligations)[i]?)
    ∧ (∀ i a, i < 50 → app (i + 1) = .ok a →
        ((applicability_analyzer app st).canonical_obligations)[i]?
          = ((st.canonical_obligations)[i]?).map
              (fun o => applyAnalysis o a)) := by
  refine ⟨?_, ?_, ?_, ?_⟩
  · have hout : (applicability_analyzer app st).canonical_obligations
        = appMap app 1 (st.canonical_obligations.take 50)
            ++ st.canonical_obligations.drop 50 := rfl
    rw [hout, List.length_append, appMap_length, List.length_take,
      List.length_drop]
    omega
  · intro i hi
    rw [applicability_analyzer_getElem]
    have h50 : ¬ i < 50 := by omega
    cases st.canonical_obligations[i]? with
    | none => rfl
    | some o => simp [h50]
  · intro i e hi he
    rw [applicability_analyzer_getElem]
    cases st.canonical_obligations[i]? with
    | none => rfl
    | some o => simp [hi, he]
  · intro i a hi ha
    rw [applicability_analyzer_getElem]
    cases st.canonical_obligations[i]? with
    | none => rfl
    | some o => simp [hi, ha]

/-- Witness for c9_applicability_capped_batch on a 51-obligation register
whose first analysis call fails: index 50 passes through, index 0 keeps
its fields, index 1 is updated. -/
theorem c9_applicability_capped_batch_witness :
    ((applicability_analyzer
        (fun k => if k = 1 then .error "timeout"
          else .ok { applicability_factors := {}
                     applicability_rules := "IF licensed THEN applies"
                     exceptions := [], evidence_expectations := []
                     plain_english_explanation := "updated", reasoning := "" })
        { chunks := [], trust_check_passed := true, trust_flags := []
          detected := [], obligations := []
          canonical_obligations := List.replicate 51 defaultObligation
          review_packages := [], final_output := [], errors := []
          should_continue := true }).canonical_obligations)[50]?
      = (List.replicate 51 defaultObligation)[50]?
    ∧ ((applicability_analyzer
        (fun k => if k = 1 then .error "timeout"
          else .ok { applicability_factors := {}
                     applicability_rules := "IF licensed THEN applies"
                     exceptions := [], evidence_expectations := []
                     plain_english_explanation := "updated", reasoning := "" })
        { chunks := [], trust_check_passed := true, trust_flags := []
          detected := [], obligations := []
          canonical_obligations := List.replicate 51 defaultObligation
          review_packages := [], final_output := [], errors := []
          should_continue := true }).canonical_obligations)[0]?
      = (List.replicate 51 defaultObligation)[0]? := by
  constructor
  · exact (c9_applicability_capped_batch _ _).2.1 50 (by decide)
  · exact (c9_applicability_capped_batch _ _).2.2.1 0 "timeout" (by decide)
      rfl

/-! ## Claim C2: a gate BLOCK yields empty output plus a BLOCKED error -/

/-- The posture gate returned BLOCK (the call succeeded with action BLOCK). -/
@[reducible] def postureBlocks (o : Oracles) : Prop :=
  match o.posture with
  | .ok pc => pc.action = GateAction.BLOCK
  | .error _ => False

/-- The privacy gate returned BLOCK. -/
@[reducible] def privacyBlocks (o : Oracles) : Prop :=
  match o.privacy with
  | .ok r => r.action = GateAction.BLOCK
  | .error _ => False

/-- The final safety gate returned BLOCK. -/
@[reducible] def safetyBlocks (o : Oracles) : Prop :=
  match o.safety with
  | .ok chk => chk.action = SafetyAction.BLOCK
  | .error _ => False

/-- The string s occurs as a substring of e. -/
def hasSubstring (s e : String) : Prop := ∃ pre post, e = pre ++ s ++ post

/-- Frame of the posture gate: it only touches should_continue, errors,
trust_flags and trust_check_passed. -/
theorem posture_frame (o : Oracles) (st : ComplianceState) :
    (regulatory_posture_enforcer o st).chunks = st.chunks
    ∧ (regulatory_posture_enforcer o st).detected = st.detected
    ∧ (regulatory_posture_enforcer o st).obligations = st.obligations
    ∧ (regulatory_posture_enforcer o st).canonical_obligations
        = st.canonical_obligations
    ∧ (regulatory_posture_enforcer o st).review_packages = st.review_packages
    ∧ (regulatory_posture_enforcer o st).final_output = st.final_output := by
  cases hp : o.posture with
  | ok pc =>
    cases hpc : pc.action <;>
      simp [regulatory_posture_enforcer, hp, hpc]
  | error e => simp [regulatory_posture_enforcer, hp]

/-- Frame of the privacy gate. -/
theorem privacy_frame (o : Oracles) (st : ComplianceState) :
    (privacy_security_scanner o st).chunks = st.chunks
    ∧ (privacy_security_scanner o st).detected = st.detected
    ∧ (privacy_security_scanner o st).obligations = st.obligations
    ∧ (privacy_security_scanner o st).canonical_obligations
        = st.canonical_obligations
    ∧ (privacy_security_scanner o st).review_packages = st.review_packages
    ∧ (privacy_security_scanner o st).final_output = st.final_output := by
  cases hp : o.privacy with
  | ok r =>
    cases hpr : r.action <;>
      simp [privacy_security_scanner, hp, hpr]
  | error e => simp [privacy_security_scanner, hp]

/-- The privacy gate only appends to errors. -/
theorem privacy_errors_ext (o : Oracles) (st : ComplianceState) :
    ∃ tl, (privacy_security_scanner o st).errors = st.errors ++ tl := by
  cases hp : o.privacy with
  | ok r =>
    cases hpr : r.action with
    | CONTINUE => exact ⟨[], by simp [privacy_security_scanner, hp, hpr]⟩
    | BLOCK =>
      exact ⟨["BLOCKED: Sensitive information detected"],
        by simp [privacy_security_scanner, hp, hpr]⟩
    | ESCALATE => exact ⟨[], by simp [privacy_security_scanner, hp, hpr]⟩
  | error e =>
    exact ⟨["Privacy scan failed: " ++ e],
      by simp [privacy_security_scanner, hp]⟩

/-- A blocking posture gate clears should_continue and records the BLOCKED
posture error. -/
theorem posture_block_effect (o : Oracles) (st : ComplianceState)
    (hb : postureBlocks o) :
    (regulatory_posture_enforcer o st).should_continue = false
    ∧ "BLOCKED: Posture violations detected"
        ∈ (regulatory_posture_enforcer o st).errors := by
  unfold postureBlocks at hb
  cases hp : o.posture with
  | ok pc =>
    rw [hp] at hb
    simp [regulatory_posture_enforcer, hp, hb]
  | error e => rw [hp] at hb; exact absurd hb not_false

/-- A blocking privacy gate clears should_continue and records the BLOCKED
privacy error. -/
theorem privacy_block_effect (o : Oracles) (st : ComplianceState)
    (hb : privacyBlocks o) :
    (privacy_security_scanner o st).should_continue = false
    ∧ "BLOCKED: Sensitive information detected"
        ∈ (privacy_security_scanner o st).errors := by
  unfold privacyBlocks at hb
  cases hp : o.privacy with
  | ok r =>
    rw [hp] at hb
    simp [privacy_security_scanner, hp, hb]
  | error e => rw [hp] at hb; exact absurd hb not_false

/-- The posture gate leaves should_continue alone unless it blocks. -/
theorem posture_sc_of_not_block (o : Oracles) (st : ComplianceState)
    (hb : ¬ postureBlocks o) :
    (regulatory_posture_enforcer o st).should_continue
      = st.should_continue := by
  unfold postureBlocks at hb
  cases hp : o.posture with
  | ok pc =>
    rw [hp] at hb
    cases ha : pc.action with
    | CONTINUE => simp [regulatory_posture_enforcer, hp, ha]
    | BLOCK => exact absurd ha (by simpa using hb)
    | ESCALATE => simp [regulatory_posture_enforcer, hp, ha]
  | error e => simp [regulatory_posture_enforcer, hp]

/-- The privacy gate leaves should_continue alone unless it blocks. -/
theorem privacy_sc_of_not_block (o : Oracles) (st : ComplianceState)
    (hb : ¬ privacyBlocks o) :
    (privacy_security_scanner o st).should_continue
      = st.should_continue := by
  unfold privacyBlocks at hb
  cases hp : o.privacy with
  | ok r =>
    rw [hp] at hb
    cases ha : r.action with
    | CONTINUE => simp [privacy_security_scanner, hp, ha]
    | BLOCK => exact absurd ha (by simpa using hb)
    | ESCALATE => simp [privacy_security_scanner, hp, ha]
  | error e => simp [privacy_security_scanner, hp]

/-- The privacy gate never restores a cleared should_continue flag. -/
theorem privacy_sc_stays_false (o : Oracles) (st : ComplianceState)
    (hsc : st.should_continue = false) :
    (privacy_security_scanner o st).should_continue = false := by
  cases hp : o.privacy with
  | ok r =>
    cases hpr : r.action <;>
      simp [privacy_security_scanner, hp, hpr, hsc]
  | error e => simp [privacy_security_scanner, hp, hsc]

/-- The gate phase clears should_continue exactly when the posture or the
privacy gate returned BLOCK. -/
theorem gateState_sc (o : Oracles) (chunks : List Chunk)
    (earlyErrors : List String) :
    (gateState o chunks earlyErrors).should_continue = false
      ↔ (postureBlocks o ∨ privacyBlocks o) := by
  constructor
  · intro h
    by_cases hp : postureBlocks o
    · exact Or.inl hp
    · by_cases hq : privacyBlocks o
      · exact Or.inr hq
      · exfalso
        have h1 := posture_sc_of_not_block o (initialState chunks earlyErrors) hp
        have h2 := privacy_sc_of_not_block o
          (regulatory_posture_enforcer o (initialState chunks earlyErrors)) hq
        unfold gateState grounding_validator_agent at h
        rw [h2, h1] at h
        exact Bool.noConfusion h
  · intro h
    rcases h with h | h
    · have h1 := (posture_block_effect o (initialState chunks earlyErrors) h).1
      exact privacy_sc_stays_false o _ h1
    · exact privacy_block_effect o _ h |>.1

/-- The gate-phase state keeps the empty obligation registers of the
initial state. -/
theorem gateState_registers (o : Oracles) (chunks : List Chunk)
    (earlyErrors : List String) :
    (gateState o chunks earlyErrors).obligations = []
    ∧ (gateState o chunks earlyErrors).canonical_obligations = []
    ∧ (gateState o chunks earlyErrors).review_packages = []
    ∧ (gateState o chunks earlyErrors).final_output = [] := by
  have hp := posture_frame o (initialState chunks earlyErrors)
  have hq := privacy_frame o
    (regulatory_posture_enforcer o (initialState chunks earlyErrors))
  unfold gateState grounding_validator_agent
  refine ⟨?_, ?_, ?_, ?_⟩
  · rw [hq.2.2.1, hp.2.2.1]; rfl
  · rw [hq.2.2.2.1, hp.2.2.2.1]; rfl
  · rw [hq.2.2.2.2.1, hp.2.2.2.2.1]; rfl
  · rw [hq.2.2.2.2.2, hp.2.2.2.2.2]; rfl

/-- If either pre-extraction gate blocked, the gate-phase errors contain a
BLOCKED entry. -/
theorem gateState_blocked_error (o : Oracles) (chunks : List Chunk)
    (earlyErrors : List String) (h : postureBlocks o ∨ privacyBlocks o) :
    ∃ err ∈ (gateState o chunks earlyErrors).errors,
      hasSubstring "BLOCKED" err := by
  unfold gateState grounding_validator_agent
  rcases h with h | h
  · obtain ⟨tl, htl⟩ := privacy_errors_ext o
      (regulatory_posture_enforcer o (initialState chunks earlyErrors))
    refine ⟨"BLOCKED: Posture violations detected", ?_, "",
      ": Posture violations detected", rfl⟩
    rw [htl]
    exact List.mem_append_left tl
      (posture_block_effect o (initialState chunks earlyErrors) h).2
  · refine ⟨"BLOCKED: Sensitive information detected", ?_, "",
      ": Sensitive information detected", rfl⟩
    exact (privacy_block_effect o _ h).2

/-- The normalization stage only rewrites canonical_obligations. -/
theorem normalization_frame (o : Oracles) (st : ComplianceState) :
    (normalization_agents o st).errors = st.errors
    ∧ (normalization_agents o st).review_packages = st.review_packages
    ∧ (normalization_agents o st).final_output = st.final_output := by
  by_cases h : st.obligations.length < 2 <;>
    simp [normalization_agents, h]

/-- The detection, extraction, normalization and applicability stages never
touch errors, should_continue, review_packages or final_output. -/
theorem middle_stages_frame (o : Oracles) (st : ComplianceState) :
    ((applicability_analyzer o.app
        (normalization_agents o
          (atomic_extractor_and_scorer o
            (obligation_detection_agent o st)))).errors = st.errors)
    ∧ ((applicability_analyzer o.app
        (normalization_agents o
          (atomic_extractor_and_scorer o
            (obligation_detection_agent o st)))).review_packages
          = st.review_packages)
    ∧ ((applicability_analyzer o.app
        (normalization_agents o
          (atomic_extractor_and_scorer o
            (obligation_detection_agent o st)))).final_output
          = st.final_output) := by
  have ha : ∀ st2 : ComplianceState,
      (applicability_analyzer o.app st2).errors = st2.errors
      ∧ (applicability_analyzer o.app st2).review_packages
          = st2.review_packages
      ∧ (applicability_analyzer o.app st2).final_output = st2.final_output :=
    fun st2 => ⟨rfl, rfl, rfl⟩
  have hx : ∀ st2 : ComplianceState,
      (atomic_extractor_and_scorer o st2).errors = st2.errors
      ∧ (atomic_extractor_and_scorer o st2).review_packages
          = st2.review_packages
      ∧ (atomic_extractor_and_scorer o st2).final_output = st2.final_output :=
    fun st2 => ⟨rfl, rfl, rfl⟩
  have hd : ∀ st2 : ComplianceState,
      (obligation_detection_agent o st2).errors = st2.errors
      ∧ (obligation_detection_agent o st2).review_packages
          = st2.review_packages
      ∧ (obligation_detection_agent o st2).final_output = st2.final_output :=
    fun st2 => ⟨rfl, rfl, rfl⟩
  have hn := normalization_frame o
    (atomic_extractor_and_scorer o (obligation_detection_agent o st))
  refine ⟨?_, ?_, ?_⟩
  · rw [(ha _).1, hn.1, (hx _).1, (hd _).1]
  · rw [(ha _).2.1, hn.2.1, (hx _).2.1, (hd _).2.1]
  · rw [(ha _).2.2, hn.2.2, (hx _).2.2, (hd _).2.2]

/-- A blocking final safety gate empties final_output and appends the
BLOCKED error. -/
theorem safety_block_effect (o : Oracles) (st : ComplianceState)
    (chk : FinalSafetyValidation) (hs : o.safety = .ok chk)
    (hb : chk.action = SafetyAction.BLOCK) :
    (safety_validator_and_packager o st).final_output = []
    ∧ (safety_validator_and_packager o st).errors
        = st.errors ++ ["BLOCKED: Final safety checks failed"] := by
  unfold safety_validator_and_packager
  rw [hs]
  simp [hb]

/-- C2.  If any trust or safety gate returns BLOCK, the run delivers an
empty final_output together with an error entry containing the substring
BLOCKED; moreover, when one of the two pre-extraction gates blocked, the
run terminated at the conditional edge, so the extraction stages never ran
and every downstream register is empty. -/
theorem c2_gate_block_empties_output (o : Oracles) (chunks : List Chunk)
    (earlyErrors : List String)
    (hb : postureBlocks o ∨ privacyBlocks o ∨ safetyBlocks o) :
    (runPipeline o chunks earlyErrors).final_output = []
    ∧ (∃ err ∈ (runPipeline o chunks earlyErrors).errors,
        hasSubstring "BLOCKED" err)
    ∧ (postureBlocks o ∨ privacyBlocks o →
        (runPipeline o chunks earlyErrors).obligations = []
        ∧ (runPipeline o chunks earlyErrors).canonical_obligations = []
        ∧ (runPipeline o chunks earlyErrors).review_packages = []) := by
  by_cases hpp : postureBlocks o ∨ privacyBlocks o
  · have hsc : (gateState o chunks earlyErrors).should_continue = false :=
      (gateState_sc o chunks earlyErrors).mpr hpp
    have hrun : runPipeline o chunks earlyErrors
        = gateState o chunks earlyErrors := by
      unfold runPipeline
      rw [hsc]
      simp
    rw [hrun]
    have hreg := gateState_registers o chunks earlyErrors
    exact ⟨hreg.2.2.2, gateState_blocked_error o chunks earlyErrors hpp,
      fun _ => ⟨hreg.1, hreg.2.1, hreg.2.2.1⟩⟩
  · have hsb : safetyBlocks o := by
      rcases hb with h | h | h
      · exact absurd (Or.inl h) hpp
      · exact absurd (Or.inr h) hpp
      · exact h
    have hsc : (gateState o chunks earlyErrors).should_continue = true := by
      cases h : (gateState o chunks earlyErrors).should_continue with
      | false => exact absurd ((gateState_sc o chunks earlyErrors).mp h) hpp
      | true => rfl
    have hrun : runPipeline o chunks earlyErrors
        = safety_validator_and_packager o
            (applicability_analyzer o.app
              (normalization_agents o
                (atomic_extractor_and_scorer o
                  (obligation_detection_agent o
                    (gateState o chunks earlyErrors))))) := by
      unfold runPipeline
      rw [hsc]
      simp
    unfold safetyBlocks at hsb
    cases hs : o.safety with
    | ok chk =>
      rw [hs] at hsb
      rw [hrun]
      have heff := safety_block_effect o
        (applicability_analyzer o.app
          (normalization_agents o
            (atomic_extractor_and_scorer o
              (obligation_detection_agent o
                (gateState o chunks earlyErrors))))) chk hs hsb
      refine ⟨heff.1, ?_, fun h => absurd h hpp⟩
      refine ⟨"BLOCKED: Final safety checks failed", ?_, "",
        ": Final safety checks failed", rfl⟩
      rw [heff.2]
      exact List.mem_append_right _ (List.mem_singleton_self _)
    | error e => rw [hs] at hsb; exact absurd hsb not_false

/-- Witness for c2_gate_block_empties_output: a run whose posture gate
blocks delivers no obligations and a BLOCKED error. -/
theorem c2_gate_block_empties_output_witness :
    (runPipeline
        { posture := .ok { posture_compliant := false
                           violations := ["legal advice language"]
                           warnings := [], action := GateAction.BLOCK
                           reasoning := "policy violation" }
          privacy := .ok { clean := true, sensitive_items := []
                           redaction_required := false
                           action := GateAction.CONTINUE }
          detect := fun _ => .error "never reached"
          atomic := fun _ => .error "never reached"
          scoring := fun _ _ => .error "never reached"
          sim := fun _ _ => 0
          synth := fun _ => .error "never reached"
          app := fun _ => .error "never reached"
          safety := .error "never reached" } [] []).final_output = []
    ∧ (∃ err ∈ (runPipeline
        { posture := .ok { posture_compliant := false
                           violations := ["legal advice language"]
                           warnings := [], action := GateAction.BLOCK
                           reasoning := "policy violation" }
          privacy := .ok { clean := true, sensitive_items := []
                           redaction_required := false
                           action := GateAction.CONTINUE }
          detect := fun _ => .error "never reached"
          atomic := fun _ => .error "never reached"
          scoring := fun _ _ => .error "never reached"
          sim := fun _ _ => 0
          synth := fun _ => .error "never reached"
          app := fun _ => .error "never reached"
          safety := .error "never reached" } [] []).errors,
        hasSubstring "BLOCKED" err)
    ∧ (postureBlocks
        { posture := .ok { posture_compliant := false
                           violations := ["legal advice language"]
                           warnings := [], action := GateAction.BLOCK
                           reasoning := "policy violation" }
          privacy := .ok { clean := true, sensitive_items := []
                           redaction_required := false
                           action := GateAction.CONTINUE }
          detect := fun _ => .error "never reached"
          atomic := fun _ => .error "never reached"
          scoring := fun _ _ => .error "never reached"
          sim := fun _ _ => 0
          synth := fun _ => .error "never reached"
          app := fun _ => .error "never reached"
          safety := .error "never reached" }
        ∨ privacyBlocks
        { posture := .ok { posture_compliant := false
                           violations := ["legal advice language"]
                           warnings := [], action := GateAction.BLOCK
                           reasoning := "policy violation" }
          privacy := .ok { clean := true, sensitive_items := []
                           redaction_required := false
                           action := GateAction.CONTINUE }
          detect := fun _ => .error "never reached"
          atomic := fun _ => .error "never reached"
          scoring := fun _ _ => .error "never reached"
          sim := fun _ _ => 0
          synth := fun _ => .error "never reached"
          app := fun _ => .error "never reached"
          safety := .error "never reached" } →
        (runPipeline
        { posture := .ok { posture_compliant := false
                           violations := ["legal advice language"]
                           warnings := [], action := GateAction.BLOCK
                           reasoning := "policy violation" }
          privacy := .ok { clean := true, sensitive_items := []
                           redaction_required := false
                           action := GateAction.CONTINUE }
          detect := fun _ => .error "never reached"
          atomic := fun _ => .error "never reached"
          scoring := fun _ _ => .error "never reached"
          sim := fun _ _ => 0
          synth := fun _ => .error "never reached"
          app := fun _ => .error "never reached"
          safety := .error "never reached" } [] []).obligations = []
        ∧ (runPipeline
        { posture := .ok { posture_compliant := false
                           violations := ["legal advice language"]
                           warnings := [], action := GateAction.BLOCK
                           reasoning := "policy violation" }
          privacy := .ok { clean := true, sensitive_items := []
                           redaction_required := false
                           action := GateAction.CONTINUE }
          detect := fun _ => .error "never reached"
          atomic := fun _ => .error "never reached"
          scoring := fun _ _ => .error "never reached"
          sim := fun _ _ => 0
          synth := fun _ => .error "never reached"
          app := fun _ => .error "never reached"
          safety := .error "never reached" } [] []).canonical_obligations = []
        ∧ (runPipeline
        { posture := .ok { posture_compliant := false
                           violations := ["legal advice language"]
                           warnings := [], action := GateAction.BLOCK
                           reasoning := "policy violation" }
          privacy := .ok { clean := true, sensitive_items := []
                           redaction_required := false
                           action := GateAction.CONTINUE }
          detect := fun _ => .error "never reached"
          atomic := fun _ => .error "never reached"
          scoring := fun _ _ => .error "never reached"
          sim := fun _ _ => 0
          synth := fun _ => .error "never reached"
          app := fun _ => .error "never reached"
          safety := .error "never reached" } [] []).review_packages = []) :=
  c2_gate_block_empties_output
    { posture := .ok { posture_compliant := false
                       violations := ["legal advice language"]
                       warnings := [], action := GateAction.BLOCK
                       reasoning := "policy violation" }
      privacy := .ok { clean := true, sensitive_items := []
                       redaction_required := false
                       action := GateAction.CONTINUE }
      detect := fun _ => .error "never reached"
      atomic := fun _ => .error "never reached"
      scoring := fun _ _ => .error "never reached"
      sim := fun _ _ => 0
      synth := fun _ => .error "never reached"
      app := fun _ => .error "never reached"
      safety := .error "never reached" } [] [] (Or.inl rfl)

/-! ## The pipeline-wide flag invariant

Every obligation record the pipeline ever creates has
trust_validation.grounding_validated = false (set so at creation in
atomic_extractor_and_scorer, extraction.py line 267, and never written by
any later stage — the grounding validator of trust.py is a no-op
placeholder) and human_reviewed = false (the pydantic default, never
written). -/

/-- The two flag facts that hold for every obligation in the run. -/
def cleanFlags (obl : EnterpriseObligation) : Prop :=
  obl.trust_validation.grounding_validated = false
  ∧ obl.human_reviewed = false

theorem scoreAtomics_clean
    (scoring : Nat → Nat → Except String ConfidenceScoring) (i : Nat) :
    ∀ (j : Nat) (atomics : List AtomicObligation)
      (l : List EnterpriseObligation),
      scoreAtomics scoring i j atomics = some l →
      ∀ ob ∈ l, cleanFlags ob := by
  intro j atomics
  induction atomics generalizing j with
  | nil =>
    intro l hl ob hob
    simp only [scoreAtomics] at hl
    cases hl
    simp at hob
  | cons a rest ih =>
    intro l hl ob hob
    simp only [scoreAtomics] at hl
    cases hsc : scoring i j with
    | error e => rw [hsc] at hl; cases hl
    | ok conf =>
      rw [hsc] at hl
      cases hrec : scoreAtomics scoring i (j + 1) rest with
      | none => rw [hrec] at hl; cases hl
      | some l2 =>
        rw [hrec] at hl
        cases hl
        rcases List.mem_cons.mp hob with h | h
        · subst h; exact ⟨rfl, rfl⟩
        · exact ih (j + 1) l2 hrec ob h

theorem process_obligation_clean (o : Oracles) (chunks : List Chunk)
    (i : Nat) (rec : DetectedRecord) :
    ∀ ob ∈ process_obligation o chunks i rec, cleanFlags ob := by
  intro ob hob
  unfold process_obligation at hob
  cases hfind : chunks.find? (fun c => c.id = rec.chunk_id) with
  | none => rw [hfind] at hob; simp at hob
  | some ch =>
    rw [hfind] at hob
    cases hat : o.atomic i with
    | error e => rw [hat] at hob; simp at hob
    | ok out =>
      rw [hat] at hob
      have hob2 : ob ∈ (match scoreAtomics o.scoring i 1
          out.atomic_obligations with
        | none => ([] : List EnterpriseObligation)
        | some l => l) := hob
      cases hsc : scoreAtomics o.scoring i 1 out.atomic_obligations with
      | none => rw [hsc] at hob2; simp at hob2
      | some l =>
        rw [hsc] at hob2
        exact scoreAtomics_clean o.scoring i 1 out.atomic_obligations l
          hsc ob hob2

theorem assignIds_clean :
    ∀ (k : Nat) (l : List EnterpriseObligation),
      (∀ ob ∈ l, cleanFlags ob) → ∀ ob ∈ assignIds k l, cleanFlags ob := by
  intro k l
  induction l generalizing k with
  | nil => intro _ ob hob; simp [assignIds] at hob
  | cons h2 t ih =>
    intro hl ob hob
    rcases List.mem_cons.mp hob with h | h
    · subst h
      exact ⟨(hl h2 (List.mem_cons_self h2 t)).1,
        (hl h2 (List.mem_cons_self h2 t)).2⟩
    · exact ih (k + 1) (fun x hx => hl x (List.mem_cons_of_mem h2 hx)) ob h

theorem atomic_extractor_clean (o : Oracles) (st : ComplianceState) :
    ∀ ob ∈ (atomic_extractor_and_scorer o st).obligations, cleanFlags ob := by
  intro ob hob
  have hob2 : ob ∈ assignIds 1
      (((enumFrom 1 (st.detected.take 100)).map (fun p =>
        process_obligation o st.chunks p.1 p.2)).flatten) := hob
  refine assignIds_clean 1 _ ?_ ob hob2
  intro x hx
  obtain ⟨inner, hinner, hxin⟩ := List.mem_flatten.mp hx
  obtain ⟨p, _, hp⟩ := List.mem_map.mp hinner
  rw [← hp] at hxin
  exact process_obligation_clean o st.chunks p.1 p.2 x hxin

theorem getD_clean (l : List EnterpriseObligation) (i : Nat)
    (h : ∀ ob ∈ l, cleanFlags ob) :
    cleanFlags (l.getD i defaultObligation) := by
  rw [List.getD_eq_getElem?_getD]
  cases hg : l[i]? with
  | none => exact ⟨rfl, rfl⟩
  | some ob => exact h ob (List.getElem?_mem hg)

theorem process_cluster_clean (obligations : List EnterpriseObligation)
    (synth : Except String CanonicalSynthesis) (idx : Nat)
    (cl : List Nat) (h : ∀ ob ∈ obligations, cleanFlags ob) :
    ∀ ob ∈ process_cluster obligations synth idx cl, cleanFlags ob := by
  have hmembers : ∀ (ks : List Nat), ∀ ob ∈ ks.map
      (fun i => obligations.getD i defaultObligation), cleanFlags ob := by
    intro ks ob hob
    obtain ⟨i, _, hi⟩ := List.mem_map.mp hob
    rw [← hi]
    exact getD_clean obligations i h
  intro ob hob
  rcases cl with _ | ⟨k, _ | ⟨k2, rest⟩⟩
  · -- empty cluster: every branch returns the empty member list
    cases hsy : synth with
    | error e => rw [hsy] at hob; simp [process_cluster] at hob
    | ok s =>
      rw [hsy] at hob
      by_cases hm : s.should_merge
      · cases hc : s.all_source_citations with
        | nil => simp [process_cluster, hm, hc] at hob
        | cons g gs => simp [process_cluster, hm, hc] at hob
      · simp [process_cluster, hm] at hob
  · -- singleton cluster: pass-through of its member
    rw [List.mem_singleton.mp hob]
    exact getD_clean obligations k h
  · cases hsy : synth with
    | error e =>
      rw [hsy] at hob
      exact hmembers (k :: k2 :: rest) ob hob
    | ok s =>
      rw [hsy] at hob
      by_cases hm : s.should_merge
      · cases hc : s.all_source_citations with
        | nil =>
          simp only [process_cluster, hm, hc, if_true] at hob
          exact hmembers (k :: k2 :: rest) ob hob
        | cons g gs =>
          simp only [process_cluster, hm, hc, if_true, List.map_cons] at hob
          rw [List.mem_singleton.mp hob]
          exact ⟨(getD_clean obligations k h).1, rfl⟩
      · simp only [process_cluster, if_neg hm] at hob
        exact hmembers (k :: k2 :: rest) ob hob

theorem normalization_obligations (o : Oracles) (st : ComplianceState) :
    (normalization_agents o st).obligations = st.obligations := by
  by_cases hl : st.obligations.length < 2 <;>
    simp [normalization_agents, hl]

theorem normalization_clean (o : Oracles) (st : ComplianceState)
    (h : ∀ ob ∈ st.obligations, cleanFlags ob) :
    ∀ ob ∈ (normalization_agents o st).canonical_obligations,
      cleanFlags ob := by
  intro ob hob
  by_cases hl : st.obligations.length < 2
  · simp only [normalization_agents, if_pos hl] at hob
    exact h ob hob
  · simp only [normalization_agents, if_neg hl] at hob
    obtain ⟨inner, hinner, hxin⟩ := List.mem_flatten.mp hob
    obtain ⟨p, _, hp⟩ := List.mem_map.mp hinner
    rw [← hp] at hxin
    exact process_cluster_clean st.obligations (o.synth p.1) p.1 p.2 h
      ob hxin

theorem appMap_clean (app : Nat → Except String ApplicabilityAnalysis) :
    ∀ (k : Nat) (l : List EnterpriseObligation),
      (∀ ob ∈ l, cleanFlags ob) →
      ∀ ob ∈ appMap app k l, cleanFlags ob := by
  intro k l
  induction l generalizing k with
  | nil => intro _ ob hob; simp [appMap] at hob
  | cons h2 t ih =>
    intro hl ob hob
    rcases List.mem_cons.mp hob with h | h
    · have hh := hl h2 (List.mem_cons_self h2 t)
      cases happ : app k with
      | ok a => rw [happ] at h; subst h; exact ⟨hh.1, hh.2⟩
      | error e => rw [happ] at h; subst h; exact hh
    · exact ih (k + 1) (fun x hx => hl x (List.mem_cons_of_mem h2 hx)) ob h

theorem applicability_clean
    (app : Nat → Except String ApplicabilityAnalysis)
    (st : ComplianceState)
    (h : ∀ ob ∈ st.canonical_obligations, cleanFlags ob) :
    ∀ ob ∈ (applicability_analyzer app st).canonical_obligations,
      cleanFlags ob := by
  intro ob hob
  have hob2 : ob ∈ appMap app 1 (st.canonical_obligations.take 50)
      ++ st.canonical_obligations.drop 50 := hob
  rcases List.mem_append.mp hob2 with h2 | h2
  · exact appMap_clean app 1 _
      (fun x hx => h x (st.canonical_obligations.take_subset 50 hx)) ob h2
  · exact h ob (st.canonical_obligations.drop_subset 50 h2)

/-- The applicability stage never rewrites the atomic register. -/
theorem applicability_obligations
    (app : Nat → Except String ApplicabilityAnalysis)
    (st : ComplianceState) :
    (applicability_analyzer app st).obligations = st.obligations := rfl

/-- The safety stage never rewrites the obligation registers it reads. -/
theorem safety_frame (o : Oracles) (st : ComplianceState) :
    (safety_validator_and_packager o st).obligations = st.obligations
    ∧ (safety_validator_and_packager o st).canonical_obligations
        = st.canonical_obligations := by
  cases hs : o.safety with
  | ok chk =>
    by_cases hb : chk.action = SafetyAction.BLOCK <;>
      simp [safety_validator_and_packager, hs, hb]
  | error e => simp [safety_validator_and_packager, hs]

/-- Whatever the safety outcome, final_output only ever contains canonical
obligations of the input state. -/
theorem safety_final_subset (o : Oracles) (st : ComplianceState) :
    ∀ ob ∈ (safety_validator_and_packager o st).final_output,
      ob ∈ st.canonical_obligations := by
  intro ob hob
  cases hs : o.safety with
  | ok chk =>
    by_cases hb : chk.action = SafetyAction.BLOCK
    · simp [safety_validator_and_packager, hs, hb] at hob
    · simpa [safety_validator_and_packager, hs, hb] using hob
  | error e => simpa [safety_validator_and_packager, hs] using hob

/-- The flag invariant over a whole run: every obligation in the atomic
register, the canonical register and the final output has
grounding_validated false and human_reviewed false. -/
theorem runPipeline_clean (o : Oracles) (chunks : List Chunk)
    (earlyErrors : List String) :
    (∀ ob ∈ (runPipeline o chunks earlyErrors).obligations, cleanFlags ob)
    ∧ (∀ ob ∈ (runPipeline o chunks earlyErrors).canonical_obligations,
        cleanFlags ob)
    ∧ (∀ ob ∈ (runPipeline o chunks earlyErrors).final_output,
        cleanFlags ob) := by
  unfold runPipeline
  cases hsc : (gateState o chunks earlyErrors).should_continue with
  | false =>
    have hreg := gateState_registers o chunks earlyErrors
    simp only [Bool.false_eq_true, if_false]
    refine ⟨?_, ?_, ?_⟩
    · intro ob hob; rw [hreg.1] at hob; simp at hob
    · intro ob hob; rw [hreg.2.1] at hob; simp at hob
    · intro ob hob; rw [hreg.2.2.2] at hob; simp at hob
  | true =>
    rw [if_pos rfl]
    have hatomic := atomic_extractor_clean o
      (obligation_detection_agent o (gateState o chunks earlyErrors))
    have hnorm := normalization_clean o
      (atomic_extractor_and_scorer o
        (obligation_detection_agent o (gateState o chunks earlyErrors)))
      hatomic
    have happl := applicability_clean o.app
      (normalization_agents o
        (atomic_extractor_and_scorer o
          (obligation_detection_agent o (gateState o chunks earlyErrors))))
      hnorm
    have hsf := safety_frame o
      (applicability_analyzer o.app
        (normalization_agents o
          (atomic_extractor_and_scorer o
            (obligation_detection_agent o (gateState o chunks earlyErrors)))))
    refine ⟨?_, ?_, ?_⟩
    · intro ob hob
      rw [hsf.1, applicability_obligations, normalization_obligations] at hob
      exact hatomic ob hob
    · intro ob hob
      rw [hsf.2] at hob
      exact happl ob hob
    · intro ob hob
      exact happl ob (safety_final_subset o _ ob hob)

/-! ## Claims C3 and C10: review packaging in non-blocked runs -/

/-- When the safety call succeeds without BLOCK, the stage packages every
review-triggering canonical obligation and delivers the full canonical
register. -/
theorem safety_ok_noblock_effect (o : Oracles) (st : ComplianceState)
    (chk : FinalSafetyValidation) (hs : o.safety = .ok chk)
    (hnb : chk.action ≠ SafetyAction.BLOCK) :
    (safety_validator_and_packager o st).review_packages
        = (st.canonical_obligations.filter needsReview).map mkReviewPackage
    ∧ (safety_validator_and_packager o st).final_output
        = st.canonical_obligations := by
  unfold safety_validator_and_packager
  rw [hs]
  simp [hnb]

/-- The Bool review trigger agrees with its propositional reading. -/
theorem needsReview_true_iff (obl : EnterpriseObligation) :
    needsReview obl = true
      ↔ (obl.confidence_score < mkRat 90 100
        ∨ obl.confidence_level = ConfidenceLevel.MEDIUM
        ∨ obl.confidence_level = ConfidenceLevel.LOW
        ∨ obl.trust_validation.grounding_validated = false) := by
  simp only [needsReview, Bool.or_eq_true, decide_eq_true_eq,
    Bool.not_eq_true']
  tauto

/-- C3 (amended).  In every run in which the final safety call itself
succeeds and does not BLOCK, every canonical obligation that triggers
review (confidence_score below 0.90, confidence_level MEDIUM or LOW, or
not grounding-validated) gets a review package referencing its
obligation_id, still appears in final_output, and its human_reviewed flag
is false — review is advisory, not blocking.  The success hypothesis on
the safety call is necessary: the refutation theorem below shows the
original unconditional claim fails when that call raises. -/
theorem c3_advisory_review_packaging (o : Oracles) (chunks : List Chunk)
    (earlyErrors : List String) (chk : FinalSafetyValidation)
    (hok : o.safety = .ok chk) (hnb : chk.action ≠ SafetyAction.BLOCK) :
    ∀ obl ∈ (runPipeline o chunks earlyErrors).canonical_obligations,
      (obl.confidence_score < mkRat 90 100
        ∨ obl.confidence_level = ConfidenceLevel.MEDIUM
        ∨ obl.confidence_level = ConfidenceLevel.LOW
        ∨ obl.trust_validation.grounding_validated = false) →
      (∃ p ∈ (runPipeline o chunks earlyErrors).review_packages,
          p.obligation_id = obl.obligation_id)
      ∧ obl ∈ (runPipeline o chunks earlyErrors).final_output
      ∧ obl.human_reviewed = false := by
  intro obl hmem htrig
  have hclean := runPipeline_clean o chunks earlyErrors
  have hhr : obl.human_reviewed = false := (hclean.2.1 obl hmem).2
  unfold runPipeline at hmem ⊢
  cases hsc : (gateState o chunks earlyErrors).should_continue with
  | false =>
    rw [hsc] at hmem
    simp only [Bool.false_eq_true, if_false] at hmem
    rw [(gateState_registers o chunks earlyErrors).2.1] at hmem
    simp at hmem
  | true =>
    rw [hsc] at hmem
    rw [if_pos rfl] at hmem
    rw [if_pos rfl]
    have heff := safety_ok_noblock_effect o
      (applicability_analyzer o.app
        (normalization_agents o
          (atomic_extractor_and_scorer o
            (obligation_detection_agent o
              (gateState o chunks earlyErrors))))) chk hok hnb
    have hsf := safety_frame o
      (applicability_analyzer o.app
        (normalization_agents o
          (atomic_extractor_and_scorer o
            (obligation_detection_agent o
              (gateState o chunks earlyErrors)))))
    rw [hsf.2] at hmem
    refine ⟨?_, ?_, hhr⟩
    · rw [heff.1]
      refine ⟨mkReviewPackage obl, ?_, rfl⟩
      refine List.mem_map_of_mem mkReviewPackage ?_
      exact List.mem_filter.mpr ⟨hmem, (needsReview_true_iff obl).mpr htrig⟩
    · rw [heff.2]
      exact hmem

/-- C10 (amended).  Every obligation the pipeline ever delivers was created
with trust_validation.grounding_validated = false and no stage sets it to
true (the grounding validator is a no-op), so in every run whose final
safety call succeeds without BLOCK, the ungrounded trigger fires for every
canonical obligation and a review package is generated for every
obligation of the final register, regardless of its confidence.  The
success hypothesis is necessary: the refutation theorem below shows the
unconditional form fails when that call raises. -/
theorem c10_grounding_never_validated (o : Oracles) (chunks : List Chunk)
    (earlyErrors : List String) (chk : FinalSafetyValidation)
    (hok : o.safety = .ok chk) (hnb : chk.action ≠ SafetyAction.BLOCK) :
    (∀ obl ∈ (runPipeline o chunks earlyErrors).obligations,
      obl.trust_validation.grounding_validated = false)
    ∧ (∀ obl ∈ (runPipeline o chunks earlyErrors).canonical_obligations,
      obl.trust_validation.grounding_validated = false)
    ∧ (∀ obl ∈ (runPipeline o chunks earlyErrors).final_output,
      obl.trust_validation.grounding_validated = false
      ∧ ∃ p ∈ (runPipeline o chunks earlyErrors).review_packages,
          p.obligation_id = obl.obligation_id) := by
  have hclean := runPipeline_clean o chunks earlyErrors
  refine ⟨fun obl h => (hclean.1 obl h).1,
    fun obl h => (hclean.2.1 obl h).1, ?_⟩
  intro obl hmem
  have hgv : obl.trust_validation.grounding_validated = false :=
    (hclean.2.2 obl hmem).1
  refine ⟨hgv, ?_⟩
  unfold runPipeline at hmem ⊢
  cases hsc : (gateState o chunks earlyErrors).should_continue with
  | false =>
    rw [hsc] at hmem
    simp only [Bool.false_eq_true, if_false] at hmem
    rw [(gateState_registers o chunks earlyErrors).2.2.2] at hmem
    simp at hmem
  | true =>
    rw [hsc] at hmem
    rw [if_pos rfl] at hmem
    rw [if_pos rfl]
    have heff := safety_ok_noblock_effect o
      (applicability_analyzer o.app
        (normalization_agents o
          (atomic_extractor_and_scorer o
            (obligation_detection_agent o
              (gateState o chunks earlyErrors))))) chk hok hnb
    rw [heff.2] at hmem
    rw [heff.1]
    refine ⟨mkReviewPackage obl, ?_, rfl⟩
    refine List.mem_map_of_mem mkReviewPackage ?_
    refine List.mem_filter.mpr ⟨hmem, (needsReview_true_iff obl).mpr ?_⟩
    exact Or.inr (Or.inr (Or.inr hgv))

/-! ## Concrete runs for the review-packaging claims -/

/-- Citation used by the concrete runs. -/
def demoGrounding : SourceGrounding :=
  { regulator := "ASIC", legal_instrument := "NCCP Act"
    section_clause := "s 29"
    verbatim_excerpt := "A person must not engage in a credit activity without a licence." }

/-- The single chunk retrieved in the concrete runs. -/
def demoChunk : Chunk :=
  { id := "c1", score := 1, text := "chunk text" }

/-- The obligation detected in the chunk of the concrete runs. -/
def demoDetected : DetectedObligation :=
  { obligation_statement := "Must hold an Australian Credit Licence."
    obligation_type := ObligationType.MANDATORY
    action_type := ActionType.MUST_DO
    subject := "credit providers", action := "hold an ACL"
    trigger := "engaging in credit activity"
    reasoning := "mandatory marker must", detection_confidence := mkRat 9 10 }

/-- The atomic obligation extracted from the detection. -/
def demoAtomic : AtomicObligation :=
  { obligation_statement := "Must hold an Australian Credit Licence."
    source_grounding := demoGrounding
    struct := { subject := "credit providers", action := "hold an ACL" }
    obligation_type := ObligationType.MANDATORY
    action_type := ActionType.MUST_DO
    is_atomic := true, atomic_check_reasoning := "single action" }

/-- Call outcomes of the C3 counterexample run: all gates pass, one
obligation is extracted at confidence 0.65, and the final safety call
raises. -/
def c3CexOracles : Oracles :=
  { posture := .ok { posture_compliant := true, violations := []
                     warnings := [], action := GateAction.CONTINUE
                     reasoning := "ok" }
    privacy := .ok { clean := true, sensitive_items := []
                     redaction_required := false
                     action := GateAction.CONTINUE }
    detect := fun i => if i = 1 then
        .ok { obligations := [demoDetected], chunk_id := "c1"
              total_detected := 1 }
      else .error "no call"
    atomic := fun i => if i = 1 then
        .ok { atomic_obligations := [demoAtomic], original_was_atomic := true }
      else .error "no call"
    scoring := fun i j => if i = 1 ∧ j = 1 then
        .ok { confidence_level := ConfidenceLevel.MEDIUM
              confidence_score := mkRat 65 100
              confidence_language := "hedged"
              certainty_level := CertaintyLevel.LIKELY
              reasoning := "hedged language" }
      else .error "no call"
    sim := fun _ _ => 0
    synth := fun _ => .error "no call"
    app := fun _ => .error "llm timeout"
    safety := .error "llm down" }

/-- Call outcomes of the C10 counterexample run: identical, but the single
obligation scores 0.97 HIGH — only the ungrounded trigger would fire. -/
def c10CexOracles : Oracles :=
  { posture := .ok { posture_compliant := true, violations := []
                     warnings := [], action := GateAction.CONTINUE
                     reasoning := "ok" }
    privacy := .ok { clean := true, sensitive_items := []
                     redaction_required := false
                     action := GateAction.CONTINUE }
    detect := fun i => if i = 1 then
        .ok { obligations := [demoDetected], chunk_id := "c1"
              total_detected := 1 }
      else .error "no call"
    atomic := fun i => if i = 1 then
        .ok { atomic_obligations := [demoAtomic], original_was_atomic := true }
      else .error "no call"
    scoring := fun i j => if i = 1 ∧ j = 1 then
        .ok { confidence_level := ConfidenceLevel.HIGH
              confidence_score := mkRat 97 100
              confidence_language := "explicit mandate"
              certainty_level := CertaintyLevel.CERTAIN
              reasoning := "explicit language" }
      else .error "no call"
    sim := fun _ _ => 0
    synth := fun _ => .error "no call"
    app := fun _ => .error "llm timeout"
    safety := .error "llm down" }

/-- The safety verdict of the witness runs: the call succeeds and approves. -/
def approveChk : FinalSafetyValidation :=
  { all_checks_passed := true, failed_checks := []
    review_required_count := 1, high_priority_reviews := []
    medium_priority_reviews := [], action := SafetyAction.APPROVE }

/-- Call outcomes of the witness runs: as in the C3 counterexample but the
final safety call succeeds with APPROVE. -/
def witOracles : Oracles :=
  { posture := .ok { posture_compliant := true, violations := []
                     warnings := [], action := GateAction.CONTINUE
                     reasoning := "ok" }
    privacy := .ok { clean := true, sensitive_items := []
                     redaction_required := false
                     action := GateAction.CONTINUE }
    detect := fun i => if i = 1 then
        .ok { obligations := [demoDetected], chunk_id := "c1"
              total_detected := 1 }
      else .error "no call"
    atomic := fun i => if i = 1 then
        .ok { atomic_obligations := [demoAtomic], original_was_atomic := true }
      else .error "no call"
    scoring := fun i j => if i = 1 ∧ j = 1 then
        .ok { confidence_level := ConfidenceLevel.MEDIUM
              confidence_score := mkRat 65 100
              confidence_language := "hedged"
              certainty_level := CertaintyLevel.LIKELY
              reasoning := "hedged language" }
      else .error "no call"
    sim := fun _ _ => 0
    synth := fun _ => .error "no call"
    app := fun _ => .error "llm timeout"
    safety := .ok approveChk }

/-- The obligation record the witness run delivers. -/
def witObl : EnterpriseObligation :=
  { obligation_id := "OBL-0001"
    obligation_statement := "Must hold an Australian Credit Licence."
    source_grounding := demoGrounding
    struct := { subject := "credit providers", action := "hold an ACL" }
    obligation_type := ObligationType.MANDATORY
    action_type := ActionType.MUST_DO
    confidence_level := ConfidenceLevel.MEDIUM
    confidence_score := mkRat 65 100
    applicability_factors := {}
    applicability_rules := "TBD"
    plain_english_explanation := "hedged"
    certainty_level := CertaintyLevel.LIKELY
    trust_validation :=
      { grounding_validated := false, posture_compliant := true
        no_legal_advice := true, privacy_clear := true } }

/-- C3, refutation of the unconditional claim on the code.  This run is
non-blocked (no gate returned BLOCK; the final safety call raised), its
final output contains an obligation with confidence 0.65 < 0.90 and
human_reviewed false, yet the review queue is empty: the except branch of
safety_validator_and_packager (validation.py lines 101-105) delivers the
canonical register without building any review package. -/
theorem c3_review_packaging_fails_on_safety_error :
    ¬ postureBlocks c3CexOracles
    ∧ ¬ privacyBlocks c3CexOracles
    ∧ ¬ safetyBlocks c3CexOracles
    ∧ (runPipeline c3CexOracles [demoChunk] []).should_continue = true
    ∧ (∃ obl ∈ (runPipeline c3CexOracles [demoChunk] []).final_output,
        obl.confidence_score < mkRat 90 100 ∧ obl.human_reviewed = false)
    ∧ (runPipeline c3CexOracles [demoChunk] []).review_packages = [] := by
  refine ⟨fun h => GateAction.noConfusion h, fun h => GateAction.noConfusion h,
    not_false, by decide, ?_, by decide⟩
  exact ⟨witObl, by decide, by decide, rfl⟩

/-- C10, refutation of the unconditional claim on the code.  This run is
non-blocked and delivers an obligation whose grounding_validated flag is
false (so the review trigger holds for it), yet no review package exists,
because the final safety call raised and the except branch skips
packaging. -/
theorem c10_packaging_skipped_on_safety_error :
    ¬ postureBlocks c10CexOracles
    ∧ ¬ privacyBlocks c10CexOracles
    ∧ ¬ safetyBlocks c10CexOracles
    ∧ (∃ obl ∈ (runPipeline c10CexOracles [demoChunk] []).final_output,
        obl.trust_validation.grounding_validated = false)
    ∧ (runPipeline c10CexOracles [demoChunk] []).review_packages = [] := by
  refine ⟨fun h => GateAction.noConfusion h, fun h => GateAction.noConfusion h,
    not_false, ?_, by decide⟩
  refine ⟨{ witObl with
    confidence_level := ConfidenceLevel.HIGH
    confidence_score := mkRat 97 100
    plain_english_explanation := "explicit mandate"
    certainty_level := CertaintyLevel.CERTAIN }, by decide, rfl⟩

/-- Witness for c3_advisory_review_packaging: the concrete witness run,
whose safety call approves, packages its 0.65-confidence obligation and
still delivers it. -/
theorem c3_advisory_review_packaging_witness :
    (∃ p ∈ (runPipeline witOracles [demoChunk] []).review_packages,
        p.obligation_id = witObl.obligation_id)
    ∧ witObl ∈ (runPipeline witOracles [demoChunk] []).final_output
    ∧ witObl.human_reviewed = false :=
  c3_advisory_review_packaging witOracles [demoChunk] [] approveChk rfl
    (by decide) witObl (by decide) (Or.inl (by decide))

/-- Witness for c10_grounding_never_validated at the same concrete run:
the delivered obligation is ungrounded and has a review package. -/
theorem c10_grounding_never_validated_witness :
    witObl.trust_validation.grounding_validated = false
    ∧ ∃ p ∈ (runPipeline witOracles [demoChunk] []).review_packages,
        p.obligation_id = witObl.obligation_id :=
  (c10_grounding_never_validated witOracles [demoChunk] [] approveChk rfl
    (by decide)).2.2 witObl (by decide)

end RiskSafeAI
